import Mathlib

/-!
# docpush — verification of the Draft Lifecycle Engine, Repository Adapter
# and Resilience Layer

Shallow embedding of the code in
`packages/docpush/src/core/github/client.ts`,
`packages/docpush/src/core/github/retry.ts`,
`packages/docpush/src/server/db/index.ts` and
`packages/docpush/src/server/routes/drafts.ts`.

Modelling conventions:
* A thrown JavaScript value is a `JsError`: either a raw transport/octokit
  error object (`GHError`), a `GitHubAPIError` constructed by the retry
  layer, or the retry layer's final `new Error('All retries failed')`.
* `async` functions returning `T` become functions returning
  `Except JsError T` (or `Except GHError T` for raw octokit calls).
* The octokit SDK is an oracle (`Octokit`): each primitive is a function of
  its arguments and of the retry-attempt index at which it is invoked, so a
  single model describes what every invocation of a retried operation sees.
* Base64 transport encoding is invisible to every property verified here
  (the code always decodes exactly what it encoded), so payloads are carried
  in decoded form and `b64encode`/`b64decode` are identities; `Buffer`
  payloads are opaque strings.
* Wall-clock time (`Date.now()`, the db's `now()`), `randomUUID()` and the
  random branch suffix are nondeterministic inputs, passed as parameters.
-/

/-- JS truthiness of an optional string field: `undefined` and `''` are
falsy. Returns the string when truthy. -/
def jsTruthy : Option String → Option String
  | some s => if s = "" then none else some s
  | none => none

/-- JS `a || b` for an optional string `a` and default `b`. -/
def jsOr (a : Option String) (b : String) : String :=
  match a with
  | some s => if s = "" then b else s
  | none => b

/-- A raw error object thrown by the transport / octokit, as inspected by
`retryWithBackoff`: its `status`, `message`, and the
`x-ratelimit-remaining` / `x-ratelimit-reset` response headers (`reset` is
the parsed integer value of the header when the header is present and
truthy). -/
structure GHError where
  status : Option Nat
  message : Option String
  remaining : Option String
  reset : Option Int
  deriving Repr, DecidableEq

/-- A thrown JavaScript value, as observed by callers of the client:
a raw error object, a `GitHubAPIError(message, status, retryAfter)`, or the
retry layer's final `new Error('All retries failed')`. -/
inductive JsError where
  | raw (e : GHError)
  | api (message : String) (status : Option Nat) (retryAfter : Option Int)
  | allFailed
  deriving Repr, DecidableEq

/-- `retry.ts` — `RetryOptions` with the source defaults. -/
structure RetryOptions where
  maxRetries : Nat
  baseDelay : Nat
  maxDelay : Nat
  deriving Repr, DecidableEq

def defaultRetryOptions : RetryOptions :=
  { maxRetries := 3, baseDelay := 1000, maxDelay := 10000 }

/-- Outcome of a `retryWithBackoff` run: the returned value or thrown
error, the number of times `fn` was invoked, and the list of `sleep`
durations performed (rate-limit waits and backoff delays, in order). -/
structure RunTrace (α : Type) where
  result : Except JsError α
  calls : Nat
  sleeps : List Int
  deriving Repr

/-- `retry.ts` line 301: `err.status && err.status >= 400 && err.status < 500
&& err.status !== 429` (`status = 0` would be falsy, subsumed by `400 ≤ s`). -/
def isClientError (e : GHError) : Bool :=
  match e.status with
  | some s => decide (400 ≤ s) && decide (s < 500) && decide (s ≠ 429)
  | none => false

/-- `retry.ts` lines 306–310: status is 403 or 429, and
`remaining === '0' && resetTime` (a present reset header is truthy). -/
def isRateLimitSignal (e : GHError) : Bool :=
  (e.status == some 403 || e.status == some 429) &&
    e.remaining == some "0" && e.reset.isSome

/-- `retry.ts` line 311: `Number.parseInt(resetTime) * 1000 - Date.now()`. -/
def waitTime (now : Int) (e : GHError) : Int :=
  match e.reset with
  | some r => r * 1000 - now
  | none => 0

/-- The retry loop of `retryWithBackoff`, structurally recursive on the
number of loop iterations still allowed (`rem`); the invariant
`attempt + rem = maxRetries` ties `rem` to the source's `attempt` counter,
so the source's `attempt < maxRetries - 1` test is `1 ≤ rem - 1` here,
i.e. `2 ≤ rem`. `calls` counts invocations of `fn` so far and doubles as
the invocation index handed to `fn`. -/
def retryAux (fn : Nat → Except GHError α) (now : Int) (baseDelay maxDelay : Nat) :
    Nat → Nat → Nat → List Int → Option GHError → RunTrace α
  | 0, _, calls, sleeps, lastError =>
      ⟨.error (match lastError with | some e => .raw e | none => .allFailed),
        calls, sleeps⟩
  | rem + 1, attempt, calls, sleeps, _ =>
      match fn calls with
      | .ok a => ⟨.ok a, calls + 1, sleeps⟩
      | .error e =>
        if isClientError e then
          ⟨.error (.api (jsOr e.message "GitHub API client error") e.status none),
            calls + 1, sleeps⟩
        else if isRateLimitSignal e then
          let wait := waitTime now e
          if 0 < wait ∧ wait < 60000 then
            retryAux fn now baseDelay maxDelay rem (attempt + 1) (calls + 1)
              (sleeps ++ [wait]) (some e)
          else
            ⟨.error (.api "GitHub API rate limit exceeded" e.status (some wait)),
              calls + 1, sleeps⟩
        else if 1 ≤ rem then
          let delay : Nat := min (baseDelay * 2 ^ attempt) maxDelay
          retryAux fn now baseDelay maxDelay rem (attempt + 1) (calls + 1)
            (sleeps ++ [(delay : Int)]) (some e)
        else
          retryAux fn now baseDelay maxDelay rem (attempt + 1) (calls + 1)
            sleeps (some e)

/-- `retry.ts` — `retryWithBackoff(fn, options)`. `fn`'s outcome may differ
per invocation, so it is indexed by the invocation count. -/
def retryWithBackoff (now : Int) (fn : Nat → Except GHError α)
    (opts : RetryOptions) : RunTrace α :=
  retryAux fn now opts.baseDelay opts.maxDelay opts.maxRetries 0 0 [] none

/-! ## Repository Adapter — `core/github/client.ts` -/

/-- The `{owner, repo, branch, docsPath}` configuration (`config.github`);
`owner`/`repo` select the repository at the transport level and are folded
into the oracle. -/
structure GHConfig where
  branch : String
  docsPath : String
  deriving Repr, DecidableEq

/-- One entry of `data.tree` as returned by `git.getTree` (`path` may be
absent — the source filters on `typeof item.path === 'string'`). -/
structure TreeItem where
  path : Option String
  type : String
  deriving Repr, DecidableEq

/-- The `data` of `repos.getContent`: the source only asks whether
`'content' in data` (file payload, base64) and whether `'sha' in data`. -/
structure ContentData where
  content : Option String
  sha : Option String
  deriving Repr, DecidableEq

/-- One entry of `repos.listCommits` as read by `getFileHistory`. -/
structure CommitData where
  sha : String
  message : String
  date : Option String
  authorName : Option String
  deriving Repr, DecidableEq

/-- The octokit SDK as an oracle: each primitive call maps its arguments
and the retry-attempt index at which the call happens to the outcome of
that invocation. -/
structure Octokit where
  getTree : Nat → Except GHError (List TreeItem)
  getRef : String → Nat → Except GHError String
  createRef : String → String → Nat → Except GHError Unit
  getContent : String → String → Nat → Except GHError ContentData
  createOrUpdateFileContents :
    String → String → String → String → Option String → Nat → Except GHError Unit
  pullsCreate : String → String → String → Nat → Except GHError Nat
  pullsMerge : Nat → Nat → Except GHError Unit
  deleteRef : String → Nat → Except GHError Unit
  listCommits : String → Nat → Except GHError (List CommitData)

/-- Payloads are carried decoded (see header); transport encoding is the
identity. -/
def b64decode (s : String) : String := s

def b64encode (s : String) : String := s

/-- JS `String.prototype.replace` with a plain-string pattern replaces the
first occurrence only. -/
def replaceFirst (s pat repl : String) : String :=
  match s.splitOn pat with
  | [] => s
  | [x] => x
  | x :: rest => x ++ repl ++ String.intercalate pat rest

/-- `throw new Error('Path is not a file')` — a plain error with no status. -/
def pathNotFileError : GHError :=
  { status := none, message := some "Path is not a file",
    remaining := none, reset := none }

/-- One tree entry returned by `getDocsTree`. -/
structure TreeEntry where
  path : String
  type : String
  deriving Repr, DecidableEq

/-- One entry returned by `getFileHistory`. -/
structure HistoryEntry where
  sha : String
  message : String
  date : String
  author : String
  deriving Repr, DecidableEq

/-- `client.ts` — `getDocsTree()`: wrapped in `retryWithBackoff`. -/
def getDocsTree (ok : Octokit) (cfg : GHConfig) (now : Int) :
    RunTrace (List TreeEntry) :=
  retryWithBackoff now (fun k =>
    match ok.getTree k with
    | .error e => .error e
    | .ok tree =>
      .ok (tree.filterMap (fun item =>
        match item.path with
        | some p =>
          if p.startsWith cfg.docsPath then
            some { path := replaceFirst p (cfg.docsPath ++ "/") "",
                   type := if item.type = "tree" then "dir" else "file" }
          else none
        | none => none))) defaultRetryOptions

/-- `client.ts` — `getFileContent(filePath, ref?)`: wrapped in
`retryWithBackoff`. -/
def getFileContent (ok : Octokit) (cfg : GHConfig) (now : Int)
    (filePath : String) (ref : Option String) : RunTrace String :=
  retryWithBackoff now (fun k =>
    let fullPath := cfg.docsPath ++ "/" ++ filePath
    match ok.getContent fullPath (jsOr ref cfg.branch) k with
    | .error e => .error e
    | .ok data =>
      match data.content with
      | some c => .ok (b64decode c)
      | none => .error pathNotFileError) defaultRetryOptions

/-- `client.ts` — `createDraftBranch(branchName)`: wrapped in
`retryWithBackoff`; reads the base branch head and creates the new ref at
that sha. -/
def createDraftBranch (ok : Octokit) (cfg : GHConfig) (now : Int)
    (branchName : String) : RunTrace String :=
  retryWithBackoff now (fun k =>
    match ok.getRef ("heads/" ++ cfg.branch) k with
    | .error e => .error e
    | .ok sha =>
      match ok.createRef ("refs/heads/" ++ branchName) sha k with
      | .error e => .error e
      | .ok _ => .ok sha) defaultRetryOptions

/-- `client.ts` — `commitFile(branchName, filePath, content, message)`:
NOT wrapped in the retry layer; fetches the current file sha (a 404 means
the file does not exist yet and is tolerated), then writes
unconditionally. It takes no expected fingerprint and performs no
conflict check. -/
def commitFile (ok : Octokit) (cfg : GHConfig)
    (branchName filePath content message : String) : Except GHError Unit :=
  let fullPath := cfg.docsPath ++ "/" ++ filePath
  let shaStep : Except GHError (Option String) :=
    match ok.getContent fullPath branchName 0 with
    | .ok data => .ok data.sha
    | .error e => if e.status == some 404 then .ok none else .error e
  match shaStep with
  | .error e => .error e
  | .ok sha =>
    ok.createOrUpdateFileContents fullPath message (b64encode content)
      branchName sha 0

/-- `client.ts` — `createPullRequest(branchName, title, body)`: NOT
wrapped in the retry layer. -/
def createPullRequest (ok : Octokit) (branchName title body : String) :
    Except GHError Nat :=
  ok.pullsCreate branchName title body 0

/-- `client.ts` — `mergePullRequest(prNumber)` (squash): NOT wrapped in
the retry layer. -/
def mergePullRequest (ok : Octokit) (prNumber : Nat) : Except GHError Unit :=
  ok.pullsMerge prNumber 0

/-- `client.ts` — `deleteBranch(branchName)`: NOT wrapped in the retry
layer, and with no handling of any error status — a 404 from `deleteRef`
propagates to the caller. -/
def deleteBranch (ok : Octokit) (branchName : String) : Except GHError Unit :=
  ok.deleteRef ("heads/" ++ branchName) 0

/-- `client.ts` — `getFileHistory(filePath)`: NOT wrapped in the retry
layer. -/
def getFileHistory (ok : Octokit) (cfg : GHConfig) (filePath : String) :
    Except GHError (List HistoryEntry) :=
  match ok.listCommits (cfg.docsPath ++ "/" ++ filePath) 0 with
  | .error e => .error e
  | .ok commits =>
    .ok (commits.map (fun c =>
      { sha := c.sha, message := c.message,
        date := jsOr c.date "", author := jsOr c.authorName "Unknown" }))

/-- `client.ts` — `uploadMedia(filePath, content, message, branch?)`: NOT
wrapped in the retry layer (the `Buffer` payload is an opaque string
here). -/
def uploadMedia (ok : Octokit) (cfg : GHConfig)
    (filePath : String) (content : String) (message : String)
    (branch : Option String) : Except GHError String :=
  let fullPath := cfg.docsPath ++ "/" ++ filePath
  let targetBranch := jsOr branch cfg.branch
  let shaStep : Except GHError (Option String) :=
    match ok.getContent fullPath targetBranch 0 with
    | .ok data => .ok data.sha
    | .error e => if e.status == some 404 then .ok none else .error e
  match shaStep with
  | .error e => .error e
  | .ok sha =>
    match ok.createOrUpdateFileContents fullPath message (b64encode content)
        targetBranch sha 0 with
    | .error e => .error e
    | .ok _ => .ok filePath

/-- `client.ts` — `getMediaContent(filePath, ref?)`: NOT wrapped in the
retry layer. -/
def getMediaContent (ok : Octokit) (cfg : GHConfig)
    (filePath : String) (ref : Option String) : Except GHError String :=
  match ok.getContent (cfg.docsPath ++ "/" ++ filePath) (jsOr ref cfg.branch) 0 with
  | .error e => .error e
  | .ok data =>
    match data.content with
    | some c => .ok (b64decode c)
    | none => .error pathNotFileError

/-! ## Draft Record Store — `server/db/index.ts` -/

/-- `status: 'pending' | 'approved' | 'rejected'`. -/
inductive DraftStatus where
  | pending
  | approved
  | rejected
  deriving Repr, DecidableEq

/-- The string rendering of a status, as stored in `drafts.json` and
compared against the `?status=` query. -/
def DraftStatus.str : DraftStatus → String
  | .pending => "pending"
  | .approved => "approved"
  | .rejected => "rejected"

/-- `db/index.ts` — the `Draft` record. -/
structure Draft where
  id : String
  docPath : String
  branchName : String
  title : String
  authorId : Option String
  authorEmail : Option String
  status : DraftStatus
  createdAt : Int
  updatedAt : Int
  deriving Repr, DecidableEq

/-- `db/index.ts` — the `DraftComment` record. -/
structure DraftComment where
  id : String
  draftId : String
  userId : Option String
  userEmail : Option String
  userName : Option String
  content : String
  createdAt : Int
  deriving Repr, DecidableEq

/-- `db/index.ts` — `DraftsData`, the whole content of `drafts.json`. -/
structure DraftsData where
  drafts : List Draft
  comments : List DraftComment
  deriving Repr, DecidableEq

/-- `Array.prototype.findIndex` + in-place update of the found element:
replace the first element satisfying `p` (only), leaving the rest alone. -/
def replaceFirstBy (p : α → Bool) (f : α → α) : List α → List α
  | [] => []
  | x :: xs => if p x then f x :: xs else x :: replaceFirstBy p f xs

/-- `Array.prototype.splice(index, 1)` at the first index satisfying `p`. -/
def removeFirstBy (p : α → Bool) : List α → List α
  | [] => []
  | x :: xs => if p x then xs else x :: removeFirstBy p xs

/-- `db/index.ts` — `getDrafts(status?)`. -/
def getDrafts (data : DraftsData) (status : Option String) : List Draft :=
  match jsTruthy status with
  | some s => data.drafts.filter (fun d => d.status.str == s)
  | none => data.drafts

/-- `db/index.ts` — `getDraft(id)` (`find` returns the first match). -/
def getDraft (data : DraftsData) (id : String) : Option Draft :=
  data.drafts.find? (fun d => d.id == id)

/-- `db/index.ts` — `createDraft(draft)`; `generateId()` and `now()` are
the `newId`/`now` parameters. -/
def createDraft (data : DraftsData) (docPath branchName title : String)
    (authorId authorEmail : Option String) (status : DraftStatus)
    (newId : String) (now : Int) : DraftsData × Draft :=
  let d : Draft :=
    { id := newId, docPath := docPath, branchName := branchName,
      title := title, authorId := authorId, authorEmail := authorEmail,
      status := status, createdAt := now, updatedAt := now }
  ({ data with drafts := data.drafts ++ [d] }, d)

/-- The only shape of `Partial<Draft>` the routes ever pass to
`updateDraft`: either `{}` or `{ status }`. -/
def applyPatch (d : Draft) (patch : Option DraftStatus) (now : Int) : Draft :=
  { d with status := patch.getD d.status, updatedAt := now }

/-- `db/index.ts` — `updateDraft(id, updates)`: spreads the updates over
the first record with this id and bumps `updatedAt`; `null` when absent. -/
def updateDraft (data : DraftsData) (id : String) (patch : Option DraftStatus)
    (now : Int) : DraftsData × Option Draft :=
  match data.drafts.find? (fun d => d.id == id) with
  | none => (data, none)
  | some d =>
    let drafts' :=
      replaceFirstBy (fun x => x.id == id) (fun x => applyPatch x patch now)
        data.drafts
    ({ data with drafts := drafts' }, some (applyPatch d patch now))

/-- `db/index.ts` — `deleteDraft(id)`: removes the first record with this
id and all its comments. -/
def deleteDraft (data : DraftsData) (id : String) : DraftsData × Bool :=
  match data.drafts.find? (fun d => d.id == id) with
  | none => (data, false)
  | some _ =>
    ({ drafts := removeFirstBy (fun d => d.id == id) data.drafts,
       comments := data.comments.filter (fun c => !(c.draftId == id)) },
      true)

/-- `db/index.ts` — `getComments(draftId)`. -/
def getComments (data : DraftsData) (draftId : String) : List DraftComment :=
  data.comments.filter (fun c => c.draftId == draftId)

/-- `db/index.ts` — `addComment(comment)`. -/
def addComment (data : DraftsData) (draftId : String)
    (userId userEmail userName : Option String) (content : String)
    (newId : String) (now : Int) : DraftsData × DraftComment :=
  let c : DraftComment :=
    { id := newId, draftId := draftId, userId := userId,
      userEmail := userEmail, userName := userName, content := content,
      createdAt := now }
  ({ data with comments := data.comments ++ [c] }, c)

/-! ## Draft Lifecycle Engine — `server/routes/drafts.ts`

The route handlers orchestrate the record store and the `GitHubClient`
instance. The client instance is abstracted as a `Remote` record (the
routes call its methods and observe only the returned value or the thrown
`JsError`); `clientRemote` below instantiates it with the adapter model. -/

/-- The `GitHubClient` surface used by the draft routes. -/
structure Remote where
  createDraftBranch : String → Except JsError String
  commitFile : String → String → String → String → Except JsError Unit
  getFileContent : String → String → Except JsError String
  createPullRequest : String → String → String → Except JsError Nat
  mergePullRequest : Nat → Except JsError Unit
  deleteBranch : String → Except JsError Unit

/-- A remote call issued (reaching the hosting API) while a handler ran,
in order. -/
inductive RemoteCall where
  | createBranch (name : String)
  | commitFile (branch path content message : String)
  | getFile (path ref : String)
  | createPR (branch title body : String)
  | mergePR (n : Nat)
  | deleteBranch (name : String)
  deriving Repr, DecidableEq

/-- The HTTP response a handler produces: a success body,
a `res.status(s).json({error})`, or `next(error)`. -/
inductive RouteResult (α : Type) where
  | ok (status : Nat) (body : α)
  | err (status : Nat) (message : String)
  | thrown (e : JsError)
  deriving Repr, DecidableEq

/-- Everything observable about one handler run: the response, the record
store afterwards, and the remote calls that were issued. -/
structure HandlerOut (α : Type) where
  response : RouteResult α
  store : DraftsData
  calls : List RemoteCall
  deriving Repr, DecidableEq

/-- The `{id?, email?, name?}` of `req.user`. -/
structure UserInfo where
  id : Option String
  email : Option String
  name : Option String
  deriving Repr, DecidableEq

/-- `docPath.replace(/[^a-z0-9]/gi, '-')`: every character outside
`[a-zA-Z0-9]` becomes `-` (written over the char list so it evaluates in
the kernel). -/
def sanitizeForBranch (s : String) : String :=
  String.mk (s.data.map (fun c => if c.isAlphanum then c else '-'))

/-- The fields of the `PUT /api/drafts/:id` JSON body. The handler reads
only `content` and `message`; the wire format admits further fields — in
particular an expected content fingerprint a caller may send — which the
source never reads. It is carried here so the conflict-detection claims
can be stated. -/
structure UpdateBody where
  content : Option String
  message : Option String
  expectedFingerprint : Option String
  deriving Repr, DecidableEq

/-- The fields of the `POST /api/drafts` JSON body. -/
structure CreateBody where
  docPath : Option String
  title : Option String
  content : Option String
  deriving Repr, DecidableEq

/-- `GET /api/drafts` — list drafts, optionally filtered by status. -/
def listDraftsRoute (data : DraftsData) (status : Option String) :
    HandlerOut (List Draft) :=
  ⟨.ok 200 (getDrafts data status), data, []⟩

/-- `POST /api/drafts` — create a draft: validate, create the branch,
commit the initial content when provided, then persist the record.
`uuidSlice` is `randomUUID().slice(0, 8)` and `newId` the record id. -/
def postDraftsRoute (remote : Remote) (data : DraftsData) (now : Int)
    (body : CreateBody) (user : Option UserInfo)
    (uuidSlice newId : String) : HandlerOut Draft :=
  match jsTruthy body.docPath, jsTruthy body.title with
  | some docPath, some title =>
    let branchName := "draft/" ++ uuidSlice ++ "-" ++ sanitizeForBranch docPath
    match remote.createDraftBranch branchName with
    | .error e => ⟨.thrown e, data, [.createBranch branchName]⟩
    | .ok _ =>
      let commitStep : Except JsError Unit × List RemoteCall :=
        match jsTruthy body.content with
        | some c =>
          (remote.commitFile branchName docPath c ("Draft: " ++ title),
            [.createBranch branchName,
             .commitFile branchName docPath c ("Draft: " ++ title)])
        | none => (.ok (), [.createBranch branchName])
      match commitStep with
      | (.error e, calls) => ⟨.thrown e, data, calls⟩
      | (.ok _, calls) =>
        let res := createDraft data docPath branchName title
          (jsTruthy (user.bind (·.id))) (jsTruthy (user.bind (·.email)))
          .pending newId now
        ⟨.ok 201 res.2, res.1, calls⟩
  | _, _ => ⟨.err 400 "docPath and title are required", data, []⟩

/-- `GET /api/drafts/:id` — draft details plus content read from the
draft branch; ANY failure of the content read is swallowed and the content
defaults to `''` (`catch { /* File might not exist yet in draft */ }`). -/
def getDraftRoute (remote : Remote) (data : DraftsData) (id : String) :
    HandlerOut (Draft × String × List DraftComment) :=
  match getDraft data id with
  | none => ⟨.err 404 "Draft not found", data, []⟩
  | some draft =>
    let content :=
      match remote.getFileContent draft.docPath draft.branchName with
      | .ok c => c
      | .error _ => ""
    ⟨.ok 200 (draft, content, getComments data draft.id), data,
      [.getFile draft.docPath draft.branchName]⟩

/-- `PUT /api/drafts/:id` — update draft content: the body is validated
first, then the record is loaded and its status checked, then the commit
is issued and the record's `updatedAt` bumped (`updateDraft(draft.id, {})`). -/
def putDraftRoute (remote : Remote) (data : DraftsData) (now : Int)
    (id : String) (body : UpdateBody) : HandlerOut (Option Draft) :=
  match jsTruthy body.content with
  | none => ⟨.err 400 "content is required", data, []⟩
  | some content =>
    match getDraft data id with
    | none => ⟨.err 404 "Draft not found", data, []⟩
    | some draft =>
      if draft.status ≠ .pending then
        ⟨.err 400 "Cannot edit non-pending draft", data, []⟩
      else
        let msg := jsOr body.message ("Update: " ++ draft.title)
        match remote.commitFile draft.branchName draft.docPath content msg with
        | .error e =>
          ⟨.thrown e, data,
            [.commitFile draft.branchName draft.docPath content msg]⟩
        | .ok _ =>
          let res := updateDraft data draft.id none now
          ⟨.ok 200 res.2, res.1,
            [.commitFile draft.branchName draft.docPath content msg]⟩

/-- `DELETE /api/drafts/:id` — best-effort branch deletion (every failure
of `deleteBranch` is swallowed), then the record and its comments are
removed. -/
def deleteDraftRoute (remote : Remote) (data : DraftsData) (id : String) :
    HandlerOut Bool :=
  match getDraft data id with
  | none => ⟨.err 404 "Draft not found", data, []⟩
  | some draft =>
    let _ := remote.deleteBranch draft.branchName
    let res := deleteDraft data draft.id
    ⟨.ok 200 true, res.1, [.deleteBranch draft.branchName]⟩

/-- `POST /api/drafts/:id/approve` — open a PR, squash-merge it, delete
the branch, then set `status = 'approved'`; any failure of those remote
calls propagates via `next(error)` with nothing persisted. -/
def approveDraftRoute (remote : Remote) (data : DraftsData) (now : Int)
    (id : String) : HandlerOut (Option Draft × Nat) :=
  match getDraft data id with
  | none => ⟨.err 404 "Draft not found", data, []⟩
  | some draft =>
    if draft.status ≠ .pending then
      ⟨.err 400 "Draft is not pending", data, []⟩
    else
      let title := "Docs: " ++ draft.title
      let body := "Approved documentation update for `" ++ draft.docPath ++ "`"
      match remote.createPullRequest draft.branchName title body with
      | .error e => ⟨.thrown e, data, [.createPR draft.branchName title body]⟩
      | .ok prNumber =>
        match remote.mergePullRequest prNumber with
        | .error e =>
          ⟨.thrown e, data,
            [.createPR draft.branchName title body, .mergePR prNumber]⟩
        | .ok _ =>
          match remote.deleteBranch draft.branchName with
          | .error e =>
            ⟨.thrown e, data,
              [.createPR draft.branchName title body, .mergePR prNumber,
               .deleteBranch draft.branchName]⟩
          | .ok _ =>
            let res := updateDraft data draft.id (some .approved) now
            ⟨.ok 200 (res.2, prNumber), res.1,
              [.createPR draft.branchName title body, .mergePR prNumber,
               .deleteBranch draft.branchName]⟩

/-- `POST /api/drafts/:id/reject` — best-effort branch deletion (every
failure swallowed), optional rejection comment, then
`status = 'rejected'`. -/
def rejectDraftRoute (remote : Remote) (data : DraftsData) (now : Int)
    (id : String) (reason : Option String) (user : Option UserInfo)
    (newCommentId : String) : HandlerOut (Option Draft) :=
  match getDraft data id with
  | none => ⟨.err 404 "Draft not found", data, []⟩
  | some draft =>
    if draft.status ≠ .pending then
      ⟨.err 400 "Draft is not pending", data, []⟩
    else
      let _ := remote.deleteBranch draft.branchName
      let data1 :=
        match jsTruthy reason with
        | some r =>
          (addComment data draft.id (jsTruthy (user.bind (·.id)))
            (jsTruthy (user.bind (·.email)))
            (some (jsOr (user.bind (·.name)) "Admin"))
            ("Rejected: " ++ r) newCommentId now).1
        | none => data
      let res := updateDraft data1 draft.id (some .rejected) now
      ⟨.ok 200 res.2, res.1, [.deleteBranch draft.branchName]⟩

/-- `GET /api/drafts/:id/comments`. -/
def getCommentsRoute (data : DraftsData) (id : String) :
    HandlerOut (List DraftComment) :=
  match getDraft data id with
  | none => ⟨.err 404 "Draft not found", data, []⟩
  | some draft => ⟨.ok 200 (getComments data draft.id), data, []⟩

/-- `POST /api/drafts/:id/comments`. -/
def postCommentRoute (data : DraftsData) (now : Int) (id : String)
    (content : Option String) (user : Option UserInfo) (newId : String) :
    HandlerOut DraftComment :=
  match jsTruthy content with
  | none => ⟨.err 400 "content is required", data, []⟩
  | some c =>
    match getDraft data id with
    | none => ⟨.err 404 "Draft not found", data, []⟩
    | some draft =>
      let res := addComment data draft.id (jsTruthy (user.bind (·.id)))
        (jsTruthy (user.bind (·.email)))
        (some (jsOr (user.bind (·.name)) "Anonymous")) c newId now
      ⟨.ok 201 res.2, res.1, []⟩

/-- The `Remote` surface as actually provided by `GitHubClient`: the three
wrapped operations go through `retryWithBackoff`, the rest are single
invocations of the adapter functions (raw errors are `JsError.raw`). -/
def clientRemote (ok : Octokit) (cfg : GHConfig) (now : Int) : Remote :=
  { createDraftBranch := fun name => (createDraftBranch ok cfg now name).result,
    commitFile := fun b p c m => (commitFile ok cfg b p c m).mapError .raw,
    getFileContent := fun p r => (getFileContent ok cfg now p (some r)).result,
    createPullRequest := fun b t body =>
      (createPullRequest ok b t body).mapError .raw,
    mergePullRequest := fun n => (mergePullRequest ok n).mapError .raw,
    deleteBranch := fun b => (deleteBranch ok b).mapError .raw }

/-! ## Helper lemmas -/

/-- A 5xx server failure: the error carries a status in [500, 600). -/
def isServerFailure (e : GHError) : Prop :=
  ∃ s, e.status = some s ∧ 500 ≤ s ∧ s < 600

lemma isClientError_of_server (e : GHError) (h : isServerFailure e) :
    isClientError e = false := by
  obtain ⟨s, hst, h5, _⟩ := h
  have : ¬ (s < 500) := by omega
  simp [isClientError, hst, this]

lemma isRateLimitSignal_of_server (e : GHError) (h : isServerFailure e) :
    isRateLimitSignal e = false := by
  obtain ⟨s, hst, h5, _⟩ := h
  have h403 : s ≠ 403 := by omega
  have h429 : s ≠ 429 := by omega
  simp [isRateLimitSignal, hst, h403, h429]

lemma jsTruthy_ne_empty {o : Option String} {s : String}
    (h : jsTruthy o = some s) : s ≠ "" := by
  match o with
  | none => simp [jsTruthy] at h
  | some t =>
    by_cases ht : t = "" <;> simp [jsTruthy, ht] at h
    exact h ▸ ht

lemma retryAux_step_server (fn : Nat → Except GHError α) (now : Int)
    (bd md rem attempt calls : Nat) (sleeps : List Int)
    (last : Option GHError) (e : GHError)
    (hfe : fn calls = .error e) (hs : isServerFailure e) :
    retryAux fn now bd md (rem + 1) attempt calls sleeps last =
      (if 1 ≤ rem then
        retryAux fn now bd md rem (attempt + 1) (calls + 1)
          (sleeps ++ [((min (bd * 2 ^ attempt) md : Nat) : Int)]) (some e)
      else
        retryAux fn now bd md rem (attempt + 1) (calls + 1) sleeps (some e)) := by
  have hc := isClientError_of_server e hs
  have hr := isRateLimitSignal_of_server e hs
  simp [retryAux, hfe, hc, hr]

/-- If `fn` fails with a 5xx on every invocation, the run makes exactly
`rem + 1` further invocations and finally throws the raw error of the last
invocation. -/
lemma retry_server_failures (fn : Nat → Except GHError α) (now : Int)
    (bd md : Nat) (h : ∀ k, ∃ e, fn k = .error e ∧ isServerFailure e) :
    ∀ r attempt calls sleeps last,
      ∃ e, fn (calls + r) = .error e ∧
        (retryAux fn now bd md (r + 1) attempt calls sleeps last).result
          = .error (.raw e) ∧
        (retryAux fn now bd md (r + 1) attempt calls sleeps last).calls
          = calls + r + 1 := by
  intro r
  induction r with
  | zero =>
    intro attempt calls sleeps last
    obtain ⟨e, hfe, hs⟩ := h calls
    refine ⟨e, by simpa using hfe, ?_, ?_⟩ <;>
      rw [retryAux_step_server fn now bd md 0 attempt calls sleeps last e hfe hs] <;>
      simp [retryAux]
  | succ r ih =>
    intro attempt calls sleeps last
    obtain ⟨e, hfe, hs⟩ := h calls
    obtain ⟨e', hfe', hres, hcalls⟩ :=
      ih (attempt + 1) (calls + 1)
        (sleeps ++ [((min (bd * 2 ^ attempt) md : Nat) : Int)]) (some e)
    have hstep :=
      retryAux_step_server fn now bd md (r + 1) attempt calls sleeps last e hfe hs
    rw [if_pos (by omega : 1 ≤ r + 1)] at hstep
    refine ⟨e', ?_, ?_, ?_⟩
    · have harith : calls + (r + 1) = calls + 1 + r := by omega
      rw [harith]; exact hfe'
    · rw [hstep]; exact hres
    · rw [hstep, hcalls]; omega

/-! ## Concrete fixtures used by witnesses and counterexamples -/

/-- A transient server failure. -/
def e500 : GHError :=
  { status := some 500, message := some "Internal Server Error",
    remaining := none, reset := none }

/-- A `Remote` whose every call succeeds. -/
def remoteOkStub : Remote :=
  { createDraftBranch := fun _ => .ok "basesha",
    commitFile := fun _ _ _ _ => .ok (),
    getFileContent := fun _ _ => .ok "body",
    createPullRequest := fun _ _ _ => .ok 7,
    mergePullRequest := fun _ => .ok (),
    deleteBranch := fun _ => .ok () }

/-- A pending draft on file `guide.md`. -/
def draft1 : Draft :=
  { id := "d1", docPath := "guide.md", branchName := "draft/abc12345-guide-md",
    title := "Guide", authorId := none, authorEmail := none,
    status := .pending, createdAt := 1, updatedAt := 1 }

/-- A store holding just `draft1`. -/
def store1 : DraftsData := { drafts := [draft1], comments := [] }

/-! ## The claims -/

/-- C5: for `withRetry` configured with `maxRetries = N`, an operation
failing with a 5xx status on every invocation is invoked at most `N` times
(in fact exactly `N`), and the error finally thrown is the very error
object the last invocation produced (thrown raw, never replaced). -/
theorem c5_retry_bound {α : Type} (opts : RetryOptions) (now : Int)
    (fn : Nat → Except GHError α)
    (h5 : ∀ k, ∃ e, fn k = .error e ∧ isServerFailure e)
    (hN : 1 ≤ opts.maxRetries) :
    (retryWithBackoff now fn opts).calls ≤ opts.maxRetries ∧
    ∃ e, fn (opts.maxRetries - 1) = .error e ∧
      (retryWithBackoff now fn opts).result = .error (.raw e) := by
  obtain ⟨r, hr⟩ : ∃ r, opts.maxRetries = r + 1 := ⟨opts.maxRetries - 1, by omega⟩
  obtain ⟨e, hfe, hres, hcalls⟩ :=
    retry_server_failures fn now opts.baseDelay opts.maxDelay h5 r 0 0 [] none
  unfold retryWithBackoff
  rw [hr]
  refine ⟨?_, e, ?_, hres⟩
  · rw [hcalls]
    omega
  · simpa using hfe

theorem c5_retry_bound_witness :
    (retryWithBackoff 0 (fun _ => (.error e500 : Except GHError Unit))
        defaultRetryOptions).calls ≤ defaultRetryOptions.maxRetries ∧
    ∃ e, (fun _ => (.error e500 : Except GHError Unit))
        (defaultRetryOptions.maxRetries - 1) = .error e ∧
      (retryWithBackoff 0 (fun _ => (.error e500 : Except GHError Unit))
        defaultRetryOptions).result = .error (.raw e) :=
  c5_retry_bound defaultRetryOptions 0 _
    (fun _ => ⟨e500, rfl, 500, rfl, by omega⟩) (by decide)

/-- C10: an update whose `content` is absent or the empty string fails
with the validation error, with the store unchanged and no remote call
issued — and this holds for EVERY store and remote, i.e. before the draft
is read, before its status is checked and before any remote call; moreover
no update invocation ever issues a commit carrying empty content. -/
theorem c10_empty_update_rejected (remote : Remote) (data : DraftsData)
    (now : Int) (id : String) (body : UpdateBody)
    (h : body.content = none ∨ body.content = some "") :
    putDraftRoute remote data now id body
      = ⟨.err 400 "content is required", data, []⟩ ∧
    ∀ (body' : UpdateBody) (b p c m : String),
      RemoteCall.commitFile b p c m ∈ (putDraftRoute remote data now id body').calls →
        c ≠ "" := by
  constructor
  · have hjt : jsTruthy body.content = none := by
      rcases h with h | h <;> simp [jsTruthy, h]
    unfold putDraftRoute
    rw [hjt]
  · intro body' b p c m hmem
    unfold putDraftRoute at hmem
    rcases hjt' : jsTruthy body'.content with _ | content
    · rw [hjt'] at hmem
      simp at hmem
    · rw [hjt'] at hmem
      rcases hgd : getDraft data id with _ | draft
      · rw [hgd] at hmem
        simp at hmem
      · rw [hgd] at hmem
        by_cases hst : draft.status = DraftStatus.pending
        · simp only [hst, ne_eq, not_true_eq_false, if_false, ite_false] at hmem
          rcases hcf : remote.commitFile draft.branchName draft.docPath content
              (jsOr body'.message ("Update: " ++ draft.title)) with e | u
          · rw [hcf] at hmem
            simp at hmem
            obtain ⟨_, _, hc, _⟩ := hmem
            rw [hc]
            exact jsTruthy_ne_empty hjt'
          · rw [hcf] at hmem
            simp at hmem
            obtain ⟨_, _, hc, _⟩ := hmem
            rw [hc]
            exact jsTruthy_ne_empty hjt'
        · simp only [ne_eq, hst, not_false_eq_true, if_true, ite_true] at hmem
          simp at hmem

theorem c10_empty_update_rejected_witness :
    putDraftRoute remoteOkStub store1 9 "d1"
        { content := some "", message := none, expectedFingerprint := none }
      = ⟨.err 400 "content is required", store1, []⟩ ∧
    ∀ (body' : UpdateBody) (b p c m : String),
      RemoteCall.commitFile b p c m ∈
          (putDraftRoute remoteOkStub store1 9 "d1" body').calls →
        c ≠ "" :=
  c10_empty_update_rejected remoteOkStub store1 9 "d1"
    { content := some "", message := none, expectedFingerprint := none }
    (Or.inr rfl)

/-- C6: if, while approving a pending draft, the pull request was opened
but the merge fails, the failure propagates unchanged, the store (hence
the draft record, still `pending`) is untouched, and no branch deletion is
issued. -/
theorem c6_approve_merge_failure (remote : Remote) (data : DraftsData)
    (now : Int) (id : String) (draft : Draft) (pr : Nat) (e : JsError)
    (hd : getDraft data id = some draft)
    (hp : draft.status = DraftStatus.pending)
    (hpr : remote.createPullRequest draft.branchName ("Docs: " ++ draft.title)
      ("Approved documentation update for `" ++ draft.docPath ++ "`") = .ok pr)
    (hm : remote.mergePullRequest pr = .error e) :
    approveDraftRoute remote data now id =
      ⟨.thrown e, data,
        [.createPR draft.branchName ("Docs: " ++ draft.title)
          ("Approved documentation update for `" ++ draft.docPath ++ "`"),
         .mergePR pr]⟩ ∧
    ∀ b, RemoteCall.deleteBranch b ∉ (approveDraftRoute remote data now id).calls := by
  have heq : approveDraftRoute remote data now id =
      ⟨.thrown e, data,
        [.createPR draft.branchName ("Docs: " ++ draft.title)
          ("Approved documentation update for `" ++ draft.docPath ++ "`"),
         .mergePR pr]⟩ := by
    unfold approveDraftRoute
    rw [hd]
    simp only [hp, ne_eq, not_true_eq_false, if_false, ite_false]
    simp only [hpr, hm]
  refine ⟨heq, ?_⟩
  intro b
  rw [heq]
  simp

/-- A remote whose merge call fails with a transient raw error. -/
def remoteMergeFail : Remote :=
  { remoteOkStub with mergePullRequest := fun _ => .error (.raw e500) }

theorem c6_approve_merge_failure_witness :
    approveDraftRoute remoteMergeFail store1 9 "d1" =
      ⟨.thrown (.raw e500), store1,
        [.createPR draft1.branchName ("Docs: " ++ draft1.title)
          ("Approved documentation update for `" ++ draft1.docPath ++ "`"),
         .mergePR 7]⟩ ∧
    ∀ b, RemoteCall.deleteBranch b ∉ (approveDraftRoute remoteMergeFail store1 9 "d1").calls :=
  c6_approve_merge_failure remoteMergeFail store1 9 "d1" draft1 7 (.raw e500)
    rfl rfl rfl rfl

lemma find?_eq_none_of_not_mem_ids (l : List Draft) (id : String)
    (h : id ∉ l.map (fun d => d.id)) :
    l.find? (fun x => x.id == id) = none := by
  induction l with
  | nil => rfl
  | cons x xs ih =>
    simp only [List.map_cons, List.mem_cons, not_or] at h
    have hx : (x.id == id) = false :=
      beq_eq_false_iff_ne.mpr (fun hh => h.1 hh.symm)
    simp only [List.find?_cons, hx]
    exact ih h.2

lemma find?_removeFirstBy_self (l : List Draft) (id : String)
    (hnd : (l.map (fun d => d.id)).Nodup) :
    (removeFirstBy (fun x => x.id == id) l).find? (fun x => x.id == id) = none := by
  induction l with
  | nil => rfl
  | cons x xs ih =>
    rw [List.map_cons, List.nodup_cons] at hnd
    by_cases hx : (x.id == id) = true
    · rw [removeFirstBy, if_pos hx]
      have hmem : id ∉ xs.map (fun d => d.id) := by
        have h1 := hnd.1
        rwa [(by simpa using hx : x.id = id)] at h1
      exact find?_eq_none_of_not_mem_ids xs id hmem
    · have hx' : (x.id == id) = false := by simpa using hx
      rw [removeFirstBy, if_neg hx]
      simp only [List.find?_cons, hx']
      exact ih hnd.2

lemma find?_replaceFirstBy_self (f : Draft → Draft)
    (hid : ∀ x, (f x).id = x.id) (l : List Draft) (id : String) (d : Draft)
    (hfind : l.find? (fun x => x.id == id) = some d) :
    (replaceFirstBy (fun x => x.id == id) f l).find? (fun x => x.id == id)
      = some (f d) := by
  induction l with
  | nil => simp [List.find?] at hfind
  | cons x xs ih =>
    by_cases hx : (x.id == id) = true
    · simp only [List.find?_cons, hx] at hfind
      injection hfind with hdx
      subst hdx
      have hfx : ((f x).id == id) = true := by rw [hid x]; exact hx
      rw [replaceFirstBy, if_pos hx]
      simp only [List.find?_cons, hfx]
    · have hx' : (x.id == id) = false := by simpa using hx
      simp only [List.find?_cons, hx'] at hfind
      rw [replaceFirstBy, if_neg hx]
      simp only [List.find?_cons, hx']
      exact ih hfind

lemma getDraft_id_eq (data : DraftsData) (id : String) (d : Draft)
    (h : getDraft data id = some d) : d.id = id := by
  have := List.find?_some h
  simpa using this

lemma updateDraft_found (data : DraftsData) (id : String)
    (patch : Option DraftStatus) (now : Int) (d : Draft)
    (h : data.drafts.find? (fun x => x.id == id) = some d) :
    updateDraft data id patch now =
      ({ drafts := replaceFirstBy (fun x => x.id == id)
            (fun x => applyPatch x patch now) data.drafts,
         comments := data.comments },
        some (applyPatch d patch now)) := by
  unfold updateDraft
  rw [h]

lemma getDraft_updateDraft (data : DraftsData) (id : String)
    (patch : Option DraftStatus) (now : Int) (d : Draft)
    (h : data.drafts.find? (fun x => x.id == id) = some d) :
    getDraft (updateDraft data id patch now).1 id
      = some (applyPatch d patch now) := by
  rw [updateDraft_found data id patch now d h]
  show (replaceFirstBy (fun x => x.id == id)
      (fun x => applyPatch x patch now) data.drafts).find?
      (fun x => x.id == id) = some (applyPatch d patch now)
  exact find?_replaceFirstBy_self (fun x => applyPatch x patch now)
    (fun x => rfl) data.drafts id d h

/-- On a found pending draft, the reject route deletes the branch
(result ignored), possibly appends a comment (drafts untouched), and
patches the status to `rejected`. -/
lemma rejectDraftRoute_eq (remote : Remote) (data : DraftsData) (now : Int)
    (id : String) (draft : Draft) (reason : Option String)
    (user : Option UserInfo) (cid : String)
    (hd : getDraft data id = some draft)
    (hp : draft.status = DraftStatus.pending) :
    ∃ data1 : DraftsData, data1.drafts = data.drafts ∧
      rejectDraftRoute remote data now id reason user cid =
        ⟨.ok 200 (updateDraft data1 draft.id (some DraftStatus.rejected) now).2,
         (updateDraft data1 draft.id (some DraftStatus.rejected) now).1,
         [.deleteBranch draft.branchName]⟩ := by
  unfold rejectDraftRoute
  rw [hd]
  simp only [hp, ne_eq, not_true_eq_false, if_false, ite_false]
  rcases hr : jsTruthy reason with _ | r
  · exact ⟨data, rfl, by simp only [hr]⟩
  · refine ⟨(addComment data draft.id (jsTruthy (user.bind fun x => x.id))
        (jsTruthy (user.bind fun x => x.email))
        (some (jsOr (user.bind fun x => x.name) "Admin"))
        ("Rejected: " ++ r) cid now).1, rfl, ?_⟩
    simp only [hr]

/-- On a found draft, the delete route deletes the branch (result
ignored) and removes the record. -/
lemma deleteDraftRoute_found (remote : Remote) (data : DraftsData)
    (id : String) (draft : Draft) (hd : getDraft data id = some draft) :
    deleteDraftRoute remote data id =
      ⟨.ok 200 true, (deleteDraft data draft.id).1,
       [.deleteBranch draft.branchName]⟩ := by
  unfold deleteDraftRoute
  rw [hd]

/-- A 404 from the remote. -/
def e404 : GHError :=
  { status := some 404, message := some "Not Found",
    remaining := none, reset := none }

/-- An octokit stub whose every call succeeds; the content read returns a
file whose current blob sha (the stored fingerprint) is `F1`. -/
def okTrivial : Octokit :=
  { getTree := fun _ => .ok [],
    getRef := fun _ _ => .ok "basesha",
    createRef := fun _ _ _ => .ok (),
    getContent := fun _ _ _ => .ok { content := some "old text", sha := some "F1" },
    createOrUpdateFileContents := fun _ _ _ _ _ _ => .ok (),
    pullsCreate := fun _ _ _ _ => .ok 7,
    pullsMerge := fun _ _ => .ok (),
    deleteRef := fun _ _ => .ok (),
    listCommits := fun _ _ => .ok [] }

/-- An octokit stub whose `deleteRef` answers 404 (branch already gone). -/
def ok404Delete : Octokit :=
  { okTrivial with deleteRef := fun _ _ => .error e404 }

/-- C9 counterexample: the adapter's `deleteBranch` does NOT treat a 404
response as success — against an octokit whose `deleteRef` answers 404,
`deleteBranch` returns that very 404 error instead of succeeding. -/
theorem c9_deleteBranch_404_counterexample :
    deleteBranch ok404Delete "draft/abc12345-guide-md" = .error e404 ∧
    e404.status = some 404 :=
  ⟨rfl, rfl⟩

/-- C9 (amended): the adapter's `deleteBranch` propagates every
`deleteRef` failure — 404 included; the idempotency lives one layer up:
the reject and delete routes swallow every `deleteBranch` failure, so they
still set the status to `rejected` (resp. remove the record) and answer
success when the backing branch is already gone. -/
theorem c9_branch_deletion_amended :
    (∀ (ok : Octokit) (b : String) (e : GHError),
      ok.deleteRef ("heads/" ++ b) 0 = .error e →
        deleteBranch ok b = .error e) ∧
    (∀ (remote : Remote) (data : DraftsData) (now : Int) (id : String)
        (draft : Draft) (reason : Option String) (user : Option UserInfo)
        (cid : String) (e : JsError),
      getDraft data id = some draft → draft.status = DraftStatus.pending →
      remote.deleteBranch draft.branchName = .error e →
      ∃ d', (rejectDraftRoute remote data now id reason user cid).response
            = .ok 200 (some d') ∧
        d'.status = DraftStatus.rejected ∧
        getDraft (rejectDraftRoute remote data now id reason user cid).store id
          = some d') ∧
    (∀ (remote : Remote) (data : DraftsData) (id : String) (draft : Draft)
        (e : JsError),
      getDraft data id = some draft →
      (data.drafts.map (fun d => d.id)).Nodup →
      remote.deleteBranch draft.branchName = .error e →
      (deleteDraftRoute remote data id).response = .ok 200 true ∧
        getDraft (deleteDraftRoute remote data id).store id = none) := by
  refine ⟨?_, ?_, ?_⟩
  · intro ok b e h
    unfold deleteBranch
    exact h
  · intro remote data now id draft reason user cid e hd hp _
    have hid' : draft.id = id := getDraft_id_eq data id draft hd
    have hfind : data.drafts.find? (fun x => x.id == draft.id) = some draft := by
      rw [hid']
      exact hd
    obtain ⟨data1, hdr, heq⟩ :=
      rejectDraftRoute_eq remote data now id draft reason user cid hd hp
    have hfind1 : data1.drafts.find? (fun x => x.id == draft.id) = some draft := by
      rw [hdr]
      exact hfind
    rw [heq]
    refine ⟨applyPatch draft (some DraftStatus.rejected) now, ?_, rfl, ?_⟩
    · rw [updateDraft_found data1 draft.id (some DraftStatus.rejected) now draft hfind1]
    · rw [hid']
      exact getDraft_updateDraft data1 id (some DraftStatus.rejected) now draft
        (hid' ▸ hfind1)
  · intro remote data id draft e hd hnd _
    have hid' : draft.id = id := getDraft_id_eq data id draft hd
    have hfind : data.drafts.find? (fun x => x.id == draft.id) = some draft := by
      rw [hid']
      exact hd
    rw [deleteDraftRoute_found remote data id draft hd]
    refine ⟨rfl, ?_⟩
    unfold deleteDraft
    rw [hfind]
    show (removeFirstBy (fun x => x.id == draft.id) data.drafts).find?
        (fun x => x.id == id) = none
    rw [hid']
    exact find?_removeFirstBy_self data.drafts id hnd

/-- A remote whose branch deletion fails with a raw 404. -/
def remoteDeleteFail : Remote :=
  { remoteOkStub with deleteBranch := fun _ => .error (.raw e404) }

theorem c9_branch_deletion_amended_witness :
    deleteBranch ok404Delete "b" = .error e404 ∧
    (∃ d', (rejectDraftRoute remoteDeleteFail store1 5 "d1" none none "c1").response
          = .ok 200 (some d') ∧
      d'.status = DraftStatus.rejected ∧
      getDraft (rejectDraftRoute remoteDeleteFail store1 5 "d1" none none "c1").store "d1"
        = some d') ∧
    ((deleteDraftRoute remoteDeleteFail store1 "d1").response = .ok 200 true ∧
      getDraft (deleteDraftRoute remoteDeleteFail store1 "d1").store "d1" = none) :=
  ⟨c9_branch_deletion_amended.1 ok404Delete "b" e404 rfl,
   c9_branch_deletion_amended.2.1 remoteDeleteFail store1 5 "d1" draft1 none none "c1"
     (.raw e404) rfl rfl rfl,
   c9_branch_deletion_amended.2.2 remoteDeleteFail store1 "d1" draft1
     (.raw e404) rfl (by decide) rfl⟩

/-- The empty record store. -/
def emptyStore : DraftsData := { drafts := [], comments := [] }

/-- A remote whose branch creation fails with a transient raw error. -/
def remoteBranchFail : Remote :=
  { remoteOkStub with createDraftBranch := fun _ => .error (.raw e500) }

/-- A remote whose branch creation succeeds but whose commit fails. -/
def remoteCommitFail : Remote :=
  { remoteOkStub with commitFile := fun _ _ _ _ => .error (.raw e500) }

/-- C7 counterexample: when the initial-content commit fails after the
branch was successfully created, NO draft record is persisted — the
handler aborts before `createDraft`, leaving the store empty (the claim
asserts an empty-content pending draft would still be persisted). -/
theorem c7_commit_failure_counterexample :
    postDraftsRoute remoteCommitFail emptyStore 10
        { docPath := some "guide.md", title := some "Guide", content := some "# Hi" }
        none "abc12345" "id-1"
      = ⟨.thrown (.raw e500), emptyStore,
         [.createBranch "draft/abc12345-guide-md",
          .commitFile "draft/abc12345-guide-md" "guide.md" "# Hi" "Draft: Guide"]⟩ ∧
    (postDraftsRoute remoteCommitFail emptyStore 10
        { docPath := some "guide.md", title := some "Guide", content := some "# Hi" }
        none "abc12345" "id-1").store.drafts = [] := by
  constructor <;> rfl

/-- C7 (amended): if branch creation fails, no record is persisted; and if
the initial-content commit fails after the branch was created, the store
is LIKEWISE left unchanged — no record (not even an empty-content one) is
persisted; only the created remote branch is left behind. -/
theorem c7_create_no_partial_record (remote : Remote) (data : DraftsData)
    (now : Int) (body : CreateBody) (user : Option UserInfo)
    (us ni docPath title : String)
    (hdp : jsTruthy body.docPath = some docPath)
    (hti : jsTruthy body.title = some title) :
    (∀ e : JsError,
      remote.createDraftBranch ("draft/" ++ us ++ "-" ++ sanitizeForBranch docPath)
          = .error e →
      postDraftsRoute remote data now body user us ni
        = ⟨.thrown e, data,
           [.createBranch ("draft/" ++ us ++ "-" ++ sanitizeForBranch docPath)]⟩) ∧
    (∀ (c sha : String) (e : JsError),
      jsTruthy body.content = some c →
      remote.createDraftBranch ("draft/" ++ us ++ "-" ++ sanitizeForBranch docPath)
          = .ok sha →
      remote.commitFile ("draft/" ++ us ++ "-" ++ sanitizeForBranch docPath)
          docPath c ("Draft: " ++ title) = .error e →
      postDraftsRoute remote data now body user us ni
        = ⟨.thrown e, data,
           [.createBranch ("draft/" ++ us ++ "-" ++ sanitizeForBranch docPath),
            .commitFile ("draft/" ++ us ++ "-" ++ sanitizeForBranch docPath)
              docPath c ("Draft: " ++ title)]⟩) := by
  constructor
  · intro e hbr
    unfold postDraftsRoute
    simp only [hdp, hti, hbr]
  · intro c sha e hc hbr hcf
    unfold postDraftsRoute
    simp only [hdp, hti, hbr, hc, hcf]

theorem c7_create_no_partial_record_witness :
    (postDraftsRoute remoteBranchFail emptyStore 10
        { docPath := some "guide.md", title := some "Guide", content := some "# Hi" }
        none "abc12345" "id-1"
      = ⟨.thrown (.raw e500), emptyStore,
         [.createBranch "draft/abc12345-guide-md"]⟩) ∧
    (postDraftsRoute remoteCommitFail emptyStore 10
        { docPath := some "guide.md", title := some "Guide", content := some "# Hi" }
        none "abc12345" "id-1"
      = ⟨.thrown (.raw e500), emptyStore,
         [.createBranch "draft/abc12345-guide-md",
          .commitFile "draft/abc12345-guide-md" "guide.md" "# Hi" "Draft: Guide"]⟩) :=
  ⟨(c7_create_no_partial_record remoteBranchFail emptyStore 10
      { docPath := some "guide.md", title := some "Guide", content := some "# Hi" }
      none "abc12345" "id-1" "guide.md" "Guide" rfl rfl).1 (.raw e500) rfl,
   (c7_create_no_partial_record remoteCommitFail emptyStore 10
      { docPath := some "guide.md", title := some "Guide", content := some "# Hi" }
      none "abc12345" "id-1" "guide.md" "Guide" rfl rfl).2 "# Hi" "basesha" (.raw e500)
     rfl rfl rfl⟩

/-- A remote whose draft-branch content read fails with a transient raw
error (a `RemoteTransientError`-class failure, not a mere 404). -/
def remoteReadFail : Remote :=
  { remoteOkStub with getFileContent := fun _ _ => .error (.raw e500) }

/-- C8 counterexample: the `GET /api/drafts/:id` handler swallows the
typed transient error raised while reading the draft content from its
branch, answering 200 with empty content instead of re-throwing it. -/
theorem c8_getDraft_swallows_read_error_counterexample :
    getDraftRoute remoteReadFail store1 "d1"
      = ⟨.ok 200 (draft1, "", []), store1,
         [.getFile draft1.docPath draft1.branchName]⟩ := by
  rfl

/-- C8 (amended): typed remote errors raised during update (the commit)
and approve (opening the pull request; the merge/delete analogues hold
alike) are re-thrown to the caller as the very same error value; but two
reads are exceptions: the content read inside `getDraft` is swallowed
(content falls back to `''`), and the branch deletion inside reject is
swallowed (the rejection still succeeds). -/
theorem c8_error_propagation (remote : Remote) (data : DraftsData)
    (now : Int) (id : String) (draft : Draft)
    (hd : getDraft data id = some draft) :
    (∀ (body : UpdateBody) (c : String) (e : JsError),
      jsTruthy body.content = some c →
      draft.status = DraftStatus.pending →
      remote.commitFile draft.branchName draft.docPath c
          (jsOr body.message ("Update: " ++ draft.title)) = .error e →
      putDraftRoute remote data now id body
        = ⟨.thrown e, data,
           [.commitFile draft.branchName draft.docPath c
             (jsOr body.message ("Update: " ++ draft.title))]⟩) ∧
    (∀ e : JsError,
      draft.status = DraftStatus.pending →
      remote.createPullRequest draft.branchName ("Docs: " ++ draft.title)
          ("Approved documentation update for `" ++ draft.docPath ++ "`") = .error e →
      approveDraftRoute remote data now id
        = ⟨.thrown e, data,
           [.createPR draft.branchName ("Docs: " ++ draft.title)
             ("Approved documentation update for `" ++ draft.docPath ++ "`")]⟩) ∧
    (∀ e : JsError,
      remote.getFileContent draft.docPath draft.branchName = .error e →
      getDraftRoute remote data id
        = ⟨.ok 200 (draft, "", getComments data draft.id), data,
           [.getFile draft.docPath draft.branchName]⟩) ∧
    (∀ (e : JsError) (reason : Option String) (user : Option UserInfo) (cid : String),
      draft.status = DraftStatus.pending →
      remote.deleteBranch draft.branchName = .error e →
      ∃ b, (rejectDraftRoute remote data now id reason user cid).response
        = .ok 200 b) := by
  refine ⟨?_, ?_, ?_, ?_⟩
  · intro body c e hc hp hcf
    unfold putDraftRoute
    rw [hc, hd]
    simp only [hp, ne_eq, not_true_eq_false, if_false, ite_false]
    simp only [hcf]
  · intro e hp hpr
    unfold approveDraftRoute
    rw [hd]
    simp only [hp, ne_eq, not_true_eq_false, if_false, ite_false]
    simp only [hpr]
  · intro e hgf
    unfold getDraftRoute
    rw [hd]
    simp only [hgf]
  · intro e reason user cid hp _
    obtain ⟨data1, _, heq⟩ :=
      rejectDraftRoute_eq remote data now id draft reason user cid hd hp
    rw [heq]
    exact ⟨(updateDraft data1 draft.id (some DraftStatus.rejected) now).2, rfl⟩

theorem c8_error_propagation_witness :
    (putDraftRoute remoteCommitFail store1 9 "d1"
        { content := some "new text", message := none, expectedFingerprint := none }
      = ⟨.thrown (.raw e500), store1,
         [.commitFile draft1.branchName draft1.docPath "new text"
           ("Update: " ++ draft1.title)]⟩) ∧
    (getDraftRoute remoteReadFail store1 "d1"
      = ⟨.ok 200 (draft1, "", getComments store1 draft1.id), store1,
         [.getFile draft1.docPath draft1.branchName]⟩) :=
  ⟨(c8_error_propagation remoteCommitFail store1 9 "d1" draft1 rfl).1
      { content := some "new text", message := none, expectedFingerprint := none }
      "new text" (.raw e500) rfl rfl rfl,
   (c8_error_propagation remoteReadFail store1 9 "d1" draft1 rfl).2.2.1
      (.raw e500) rfl⟩

lemma find?_replaceFirstBy_status (q : Draft → Bool) (f : Draft → Draft)
    (hig : ∀ x, (f x).id = x.id) (hst : ∀ x, (f x).status = x.status)
    (l : List Draft) (id : String) (d' : Draft)
    (h : (replaceFirstBy q f l).find? (fun x => x.id == id) = some d') :
    ∃ d, l.find? (fun x => x.id == id) = some d ∧ d'.status = d.status := by
  induction l with
  | nil => simp [replaceFirstBy, List.find?] at h
  | cons x xs ih =>
    by_cases hq : q x = true
    · rw [replaceFirstBy, if_pos hq] at h
      by_cases hx : ((f x).id == id) = true
      · simp only [List.find?_cons, hx] at h
        injection h with h'
        subst h'
        have hx2 : (x.id == id) = true := by rw [← hig x]; exact hx
        exact ⟨x, by simp only [List.find?_cons, hx2], hst x⟩
      · have hx' : ((f x).id == id) = false := by simpa using hx
        simp only [List.find?_cons, hx'] at h
        have hx2 : (x.id == id) = false := by rw [← hig x]; exact hx'
        refine ⟨d', ?_, rfl⟩
        simp only [List.find?_cons, hx2]
        exact h
    · rw [replaceFirstBy, if_neg hq] at h
      by_cases hx : (x.id == id) = true
      · simp only [List.find?_cons, hx] at h
        injection h with h'
        subst h'
        exact ⟨x, by simp only [List.find?_cons, hx], rfl⟩
      · have hx' : (x.id == id) = false := by simpa using hx
        simp only [List.find?_cons, hx'] at h
        obtain ⟨d, hfd, hsd⟩ := ih h
        exact ⟨d, by simp only [List.find?_cons, hx']; exact hfd, hsd⟩

lemma find?_replaceFirstBy_ne (f : Draft → Draft) (hig : ∀ x, (f x).id = x.id)
    (l : List Draft) (id id' : String) (hne : id ≠ id') :
    (replaceFirstBy (fun x => x.id == id') f l).find? (fun x => x.id == id)
      = l.find? (fun x => x.id == id) := by
  have hbeq : (id' == id) = false :=
    beq_eq_false_iff_ne.mpr (fun hh => hne hh.symm)
  induction l with
  | nil => rfl
  | cons x xs ih =>
    by_cases hq : (x.id == id') = true
    · rw [replaceFirstBy, if_pos hq]
      have hxid : x.id = id' := by simpa using hq
      have h1 : ((f x).id == id) = false := by rw [hig x, hxid]; exact hbeq
      have h2 : (x.id == id) = false := by rw [hxid]; exact hbeq
      simp only [List.find?_cons, h1, h2]
    · rw [replaceFirstBy, if_neg hq]
      by_cases hx : (x.id == id) = true
      · simp only [List.find?_cons, hx]
      · have hx' : (x.id == id) = false := by simpa using hx
        simp only [List.find?_cons, hx']
        exact ih

lemma find?_removeFirstBy_ne (l : List Draft) (id id' : String) (hne : id ≠ id') :
    (removeFirstBy (fun x => x.id == id') l).find? (fun x => x.id == id)
      = l.find? (fun x => x.id == id) := by
  have hbeq : (id' == id) = false :=
    beq_eq_false_iff_ne.mpr (fun hh => hne hh.symm)
  induction l with
  | nil => rfl
  | cons x xs ih =>
    by_cases hq : (x.id == id') = true
    · rw [removeFirstBy, if_pos hq]
      have hxid : x.id = id' := by simpa using hq
      have h2 : (x.id == id) = false := by rw [hxid]; exact hbeq
      simp only [List.find?_cons, h2]
    · rw [removeFirstBy, if_neg hq]
      by_cases hx : (x.id == id) = true
      · simp only [List.find?_cons, hx]
      · have hx' : (x.id == id) = false := by simpa using hx
        simp only [List.find?_cons, hx']
        exact ih

lemma getDraftRoute_store (remote : Remote) (data : DraftsData) (id' : String) :
    (getDraftRoute remote data id').store = data := by
  unfold getDraftRoute
  rcases hg : getDraft data id' with _ | draft <;> simp only [hg]

lemma getCommentsRoute_store (data : DraftsData) (id' : String) :
    (getCommentsRoute data id').store = data := by
  unfold getCommentsRoute
  rcases hg : getDraft data id' with _ | draft <;> simp only [hg]

lemma postCommentRoute_drafts (data : DraftsData) (now : Int) (id' : String)
    (content : Option String) (user : Option UserInfo) (ni : String) :
    (postCommentRoute data now id' content user ni).store.drafts = data.drafts := by
  unfold postCommentRoute
  rcases hc : jsTruthy content with _ | c
  · simp only [hc]
  · simp only [hc]
    rcases hg : getDraft data id' with _ | draft
    · simp only [hg]
    · simp only [hg]
      rfl

lemma postDraftsRoute_drafts (remote : Remote) (data : DraftsData) (now : Int)
    (body : CreateBody) (user : Option UserInfo) (us ni : String) :
    (postDraftsRoute remote data now body user us ni).store.drafts = data.drafts ∨
    ∃ nd, (postDraftsRoute remote data now body user us ni).store.drafts
      = data.drafts ++ [nd] := by
  unfold postDraftsRoute
  rcases h1 : jsTruthy body.docPath with _ | dp <;>
    rcases h2 : jsTruthy body.title with _ | ti <;>
    simp only [h1, h2]
  · left; trivial
  · left; trivial
  · left; trivial
  rcases h3 : remote.createDraftBranch
      ("draft/" ++ us ++ "-" ++ sanitizeForBranch dp) with e | sha <;>
    simp only [h3]
  · left; trivial
  rcases h4 : jsTruthy body.content with _ | c <;> simp only [h4]
  · right
    exact ⟨_, rfl⟩
  rcases h5 : remote.commitFile ("draft/" ++ us ++ "-" ++ sanitizeForBranch dp)
      dp c ("Draft: " ++ ti) with e | u <;> simp only [h5]
  · left; trivial
  · right
    exact ⟨_, rfl⟩

lemma putDraftRoute_drafts (remote : Remote) (data : DraftsData) (now : Int)
    (id' : String) (body : UpdateBody) :
    (putDraftRoute remote data now id' body).store.drafts = data.drafts ∨
    ∃ draft', getDraft data id' = some draft' ∧
      (putDraftRoute remote data now id' body).store.drafts
        = replaceFirstBy (fun x => x.id == draft'.id)
            (fun x => applyPatch x none now) data.drafts := by
  unfold putDraftRoute
  rcases hc : jsTruthy body.content with _ | c <;> simp only [hc]
  · left; trivial
  rcases hg : getDraft data id' with _ | draft' <;> simp only [hg]
  · left; trivial
  by_cases hp : draft'.status = DraftStatus.pending
  · simp only [hp, ne_eq, not_true_eq_false, if_false, ite_false]
    rcases hcf : remote.commitFile draft'.branchName draft'.docPath c
        (jsOr body.message ("Update: " ++ draft'.title)) with e | u <;>
      simp only [hcf]
    · left; trivial
    · right
      refine ⟨draft', rfl, ?_⟩
      have hii : draft'.id = id' := getDraft_id_eq data id' draft' hg
      have hf : data.drafts.find? (fun x => x.id == draft'.id) = some draft' := by
        rw [hii]; exact hg
      rw [updateDraft_found data draft'.id none now draft' hf]
  · rw [if_pos hp]
    left; trivial

lemma approveDraftRoute_drafts (remote : Remote) (data : DraftsData)
    (now : Int) (id' : String) :
    (approveDraftRoute remote data now id').store.drafts = data.drafts ∨
    ∃ draft', getDraft data id' = some draft' ∧
      draft'.status = DraftStatus.pending ∧
      (approveDraftRoute remote data now id').store.drafts
        = replaceFirstBy (fun x => x.id == draft'.id)
            (fun x => applyPatch x (some DraftStatus.approved) now) data.drafts := by
  unfold approveDraftRoute
  rcases hg : getDraft data id' with _ | draft' <;> simp only [hg]
  · left; trivial
  by_cases hp : draft'.status = DraftStatus.pending
  · simp only [hp, ne_eq, not_true_eq_false, if_false, ite_false]
    rcases h3 : remote.createPullRequest draft'.branchName ("Docs: " ++ draft'.title)
        ("Approved documentation update for `" ++ draft'.docPath ++ "`") with e | pr <;>
      simp only [h3]
    · left; trivial
    rcases h4 : remote.mergePullRequest pr with e | u <;> simp only [h4]
    · left; trivial
    rcases h5 : remote.deleteBranch draft'.branchName with e | u <;> simp only [h5]
    · left; trivial
    · right
      refine ⟨draft', rfl, hp, ?_⟩
      have hii : draft'.id = id' := getDraft_id_eq data id' draft' hg
      have hf : data.drafts.find? (fun x => x.id == draft'.id) = some draft' := by
        rw [hii]; exact hg
      rw [updateDraft_found data draft'.id (some DraftStatus.approved) now draft' hf]
  · rw [if_pos hp]
    left; trivial

lemma rejectDraftRoute_drafts (remote : Remote) (data : DraftsData)
    (now : Int) (id' : String) (reason : Option String) (user : Option UserInfo)
    (cid : String) :
    (rejectDraftRoute remote data now id' reason user cid).store.drafts
        = data.drafts ∨
    ∃ draft', getDraft data id' = some draft' ∧
      draft'.status = DraftStatus.pending ∧
      (rejectDraftRoute remote data now id' reason user cid).store.drafts
        = replaceFirstBy (fun x => x.id == draft'.id)
            (fun x => applyPatch x (some DraftStatus.rejected) now) data.drafts := by
  rcases hg : getDraft data id' with _ | draft'
  · left
    unfold rejectDraftRoute
    simp only [hg]
  by_cases hp : draft'.status = DraftStatus.pending
  · right
    obtain ⟨data1, hdr, heq⟩ :=
      rejectDraftRoute_eq remote data now id' draft' reason user cid hg hp
    refine ⟨draft', rfl, hp, ?_⟩
    rw [heq]
    have hii : draft'.id = id' := getDraft_id_eq data id' draft' hg
    have hf1 : data1.drafts.find? (fun x => x.id == draft'.id) = some draft' := by
      rw [hdr, hii]; exact hg
    rw [updateDraft_found data1 draft'.id (some DraftStatus.rejected) now draft' hf1]
    rw [hdr]
  · left
    unfold rejectDraftRoute
    simp only [hg]
    rw [if_pos hp]

lemma deleteDraftRoute_drafts (remote : Remote) (data : DraftsData)
    (id' : String) :
    (deleteDraftRoute remote data id').store.drafts = data.drafts ∨
    ∃ draft', getDraft data id' = some draft' ∧
      (deleteDraftRoute remote data id').store.drafts
        = removeFirstBy (fun x => x.id == draft'.id) data.drafts := by
  rcases hg : getDraft data id' with _ | draft'
  · left
    unfold deleteDraftRoute
    simp only [hg]
  · right
    refine ⟨draft', rfl, ?_⟩
    rw [deleteDraftRoute_found remote data id' draft' hg]
    have hii : draft'.id = id' := getDraft_id_eq data id' draft' hg
    have hf : data.drafts.find? (fun x => x.id == draft'.id) = some draft' := by
      rw [hii]; exact hg
    unfold deleteDraft
    rw [hf]

/-- The draft found under `id` (if any) still has status `st`. -/
def statusFrozen (ds : List Draft) (id : String) (st : DraftStatus) : Prop :=
  ∀ d', ds.find? (fun x => x.id == id) = some d' → d'.status = st

/-- C4: on a draft in a terminal status (`approved`/`rejected`), update,
approve and reject all fail with the invalid-state rejection (HTTP 400,
the route-level rendering of `InvalidStateError`) without touching the
store or the remote; and across EVERY exposed draft operation, at any
target, the draft's status never changes (the record can only disappear
wholesale through delete). -/
theorem c4_terminal_draft_frozen (data : DraftsData) (id : String) (d : Draft)
    (hd : getDraft data id = some d)
    (hterm : d.status = DraftStatus.approved ∨ d.status = DraftStatus.rejected)
    (hnd : (data.drafts.map (fun x => x.id)).Nodup) :
    (∀ (remote : Remote) (now : Int) (body : UpdateBody) (c : String),
      jsTruthy body.content = some c →
      putDraftRoute remote data now id body
        = ⟨.err 400 "Cannot edit non-pending draft", data, []⟩) ∧
    (∀ (remote : Remote) (now : Int),
      approveDraftRoute remote data now id
        = ⟨.err 400 "Draft is not pending", data, []⟩) ∧
    (∀ (remote : Remote) (now : Int) (reason : Option String)
        (user : Option UserInfo) (cid : String),
      rejectDraftRoute remote data now id reason user cid
        = ⟨.err 400 "Draft is not pending", data, []⟩) ∧
    (∀ (remote : Remote) (now : Int) (body : CreateBody)
        (user : Option UserInfo) (us ni : String),
      statusFrozen (postDraftsRoute remote data now body user us ni).store.drafts
        id d.status) ∧
    (∀ (remote : Remote) (id' : String),
      statusFrozen (getDraftRoute remote data id').store.drafts id d.status) ∧
    (∀ (remote : Remote) (now : Int) (id' : String) (body : UpdateBody),
      statusFrozen (putDraftRoute remote data now id' body).store.drafts
        id d.status) ∧
    (∀ (remote : Remote) (id' : String),
      statusFrozen (deleteDraftRoute remote data id').store.drafts id d.status) ∧
    (∀ (remote : Remote) (now : Int) (id' : String),
      statusFrozen (approveDraftRoute remote data now id').store.drafts
        id d.status) ∧
    (∀ (remote : Remote) (now : Int) (id' : String) (reason : Option String)
        (user : Option UserInfo) (cid : String),
      statusFrozen (rejectDraftRoute remote data now id' reason user cid).store.drafts
        id d.status) ∧
    (∀ (now : Int) (id' : String) (content : Option String)
        (user : Option UserInfo) (ni : String),
      statusFrozen (postCommentRoute data now id' content user ni).store.drafts
        id d.status) ∧
    (∀ status : Option String,
      statusFrozen (listDraftsRoute data status).store.drafts id d.status) ∧
    (∀ id' : String,
      statusFrozen (getCommentsRoute data id').store.drafts id d.status) := by
  have hd0 : data.drafts.find? (fun x => x.id == id) = some d := hd
  have hps : d.status ≠ DraftStatus.pending := by
    rcases hterm with h | h <;> rw [h] <;> intro hcc <;> cases hcc
  have base : ∀ d'', data.drafts.find? (fun x => x.id == id) = some d'' →
      d''.status = d.status := by
    intro d'' h''
    rw [hd0] at h''
    injection h'' with hh
    rw [← hh]
  have hne_of : ∀ (id' : String) (draft' : Draft),
      getDraft data id' = some draft' →
      draft'.status = DraftStatus.pending → id ≠ draft'.id := by
    intro id' draft' hg hp hcontra
    have hii : draft'.id = id' := getDraft_id_eq data id' draft' hg
    have hid2 : id = id' := hcontra.trans hii
    have hgx : data.drafts.find? (fun x => x.id == id) = some draft' := by
      rw [hid2]; exact hg
    rw [hd0] at hgx
    injection hgx with hh
    rw [← hh] at hp
    exact hps hp
  refine ⟨?_, ?_, ?_, ?_, ?_, ?_, ?_, ?_, ?_, ?_, ?_, ?_⟩
  · intro remote now body c hc
    unfold putDraftRoute
    simp only [hc, hd]
    rw [if_pos hps]
  · intro remote now
    unfold approveDraftRoute
    simp only [hd]
    rw [if_pos hps]
  · intro remote now reason user cid
    unfold rejectDraftRoute
    simp only [hd]
    rw [if_pos hps]
  · intro remote now body user us ni d' hfind'
    rcases postDraftsRoute_drafts remote data now body user us ni with heq | ⟨nd, heq⟩
    · rw [heq] at hfind'
      exact base d' hfind'
    · rw [heq, List.find?_append, hd0, Option.or_some] at hfind'
      injection hfind' with hh
      rw [← hh]
  · intro remote id' d' hfind'
    rw [getDraftRoute_store remote data id'] at hfind'
    exact base d' hfind'
  · intro remote now id' body d' hfind'
    rcases putDraftRoute_drafts remote data now id' body with heq | ⟨draft', hg, heq⟩
    · rw [heq] at hfind'
      exact base d' hfind'
    · rw [heq] at hfind'
      obtain ⟨orig, horig, hstat⟩ := find?_replaceFirstBy_status
        (fun x => x.id == draft'.id) (fun x => applyPatch x none now)
        (fun x => rfl) (fun x => rfl) data.drafts id d' hfind'
      rw [hstat]
      exact base orig horig
  · intro remote id' d' hfind'
    rcases deleteDraftRoute_drafts remote data id' with heq | ⟨draft', hg, heq⟩
    · rw [heq] at hfind'
      exact base d' hfind'
    · by_cases hcase : id = draft'.id
      · rw [heq, ← hcase, find?_removeFirstBy_self data.drafts id hnd] at hfind'
        simp at hfind'
      · rw [heq, find?_removeFirstBy_ne data.drafts id draft'.id hcase] at hfind'
        exact base d' hfind'
  · intro remote now id' d' hfind'
    rcases approveDraftRoute_drafts remote data now id' with heq | ⟨draft', hg, hp, heq⟩
    · rw [heq] at hfind'
      exact base d' hfind'
    · rw [heq, find?_replaceFirstBy_ne
        (fun x => applyPatch x (some DraftStatus.approved) now)
        (fun x => rfl) data.drafts id draft'.id (hne_of id' draft' hg hp)] at hfind'
      exact base d' hfind'
  · intro remote now id' reason user cid d' hfind'
    rcases rejectDraftRoute_drafts remote data now id' reason user cid with
      heq | ⟨draft', hg, hp, heq⟩
    · rw [heq] at hfind'
      exact base d' hfind'
    · rw [heq, find?_replaceFirstBy_ne
        (fun x => applyPatch x (some DraftStatus.rejected) now)
        (fun x => rfl) data.drafts id draft'.id (hne_of id' draft' hg hp)] at hfind'
      exact base d' hfind'
  · intro now id' content user ni d' hfind'
    rw [postCommentRoute_drafts data now id' content user ni] at hfind'
    exact base d' hfind'
  · intro status d' hfind'
    exact base d' hfind'
  · intro id' d' hfind'
    rw [getCommentsRoute_store data id'] at hfind'
    exact base d' hfind'

/-- An approved (terminal) draft. -/
def draftApproved : Draft :=
  { id := "d2", docPath := "a.md", branchName := "draft/x-a-md",
    title := "A", authorId := none, authorEmail := none,
    status := .approved, createdAt := 1, updatedAt := 1 }

/-- A store holding just `draftApproved`. -/
def store2 : DraftsData := { drafts := [draftApproved], comments := [] }

theorem c4_terminal_draft_frozen_witness :
    (putDraftRoute remoteOkStub store2 9 "d2"
        { content := some "x", message := none, expectedFingerprint := none }
      = ⟨.err 400 "Cannot edit non-pending draft", store2, []⟩) ∧
    (approveDraftRoute remoteOkStub store2 9 "d2"
      = ⟨.err 400 "Draft is not pending", store2, []⟩) ∧
    (rejectDraftRoute remoteOkStub store2 9 "d2" none none "c9x"
      = ⟨.err 400 "Draft is not pending", store2, []⟩) :=
  have h := c4_terminal_draft_frozen store2 "d2" draftApproved rfl
    (Or.inl rfl) (by decide)
  ⟨h.1 remoteOkStub 9
      { content := some "x", message := none, expectedFingerprint := none } "x" rfl,
   h.2.1 remoteOkStub 9,
   h.2.2.1 remoteOkStub 9 none none "c9x"⟩

lemma retryAux_step_ok (fn : Nat → Except GHError α) (now : Int)
    (bd md rem attempt calls : Nat) (sleeps : List Int)
    (last : Option GHError) (a : α) (hfe : fn calls = .ok a) :
    retryAux fn now bd md (rem + 1) attempt calls sleeps last
      = ⟨.ok a, calls + 1, sleeps⟩ := by
  simp [retryAux, hfe]

lemma retryAux_step_client (fn : Nat → Except GHError α) (now : Int)
    (bd md rem attempt calls : Nat) (sleeps : List Int)
    (last : Option GHError) (e : GHError)
    (hfe : fn calls = .error e) (hcl : isClientError e = true) :
    retryAux fn now bd md (rem + 1) attempt calls sleeps last
      = ⟨.error (.api (jsOr e.message "GitHub API client error") e.status none),
         calls + 1, sleeps⟩ := by
  simp [retryAux, hfe, hcl]

lemma retryAux_step_ratelimited (fn : Nat → Except GHError α) (now : Int)
    (bd md rem attempt calls : Nat) (sleeps : List Int)
    (last : Option GHError) (e : GHError)
    (hfe : fn calls = .error e) (hcl : isClientError e = false)
    (hsig : isRateLimitSignal e = true)
    (hwin : 0 < waitTime now e ∧ waitTime now e < 60000) :
    retryAux fn now bd md (rem + 1) attempt calls sleeps last
      = retryAux fn now bd md rem (attempt + 1) (calls + 1)
          (sleeps ++ [waitTime now e]) (some e) := by
  simp only [retryAux, hfe, hcl, Bool.false_eq_true, if_false, hsig, if_true]
  rw [if_pos hwin]

lemma retryAux_step_ratelimit_throw (fn : Nat → Except GHError α) (now : Int)
    (bd md rem attempt calls : Nat) (sleeps : List Int)
    (last : Option GHError) (e : GHError)
    (hfe : fn calls = .error e) (hcl : isClientError e = false)
    (hsig : isRateLimitSignal e = true)
    (hnw : ¬(0 < waitTime now e ∧ waitTime now e < 60000)) :
    retryAux fn now bd md (rem + 1) attempt calls sleeps last
      = ⟨.error (.api "GitHub API rate limit exceeded" e.status
           (some (waitTime now e))), calls + 1, sleeps⟩ := by
  simp only [retryAux, hfe, hcl, Bool.false_eq_true, if_false, hsig, if_true]
  rw [if_neg hnw]

lemma retryAux_step_backoff (fn : Nat → Except GHError α) (now : Int)
    (bd md rem attempt calls : Nat) (sleeps : List Int)
    (last : Option GHError) (e : GHError)
    (hfe : fn calls = .error e) (hcl : isClientError e = false)
    (hsig : isRateLimitSignal e = false) (hrm : 1 ≤ rem) :
    retryAux fn now bd md (rem + 1) attempt calls sleeps last
      = retryAux fn now bd md rem (attempt + 1) (calls + 1)
          (sleeps ++ [((min (bd * 2 ^ attempt) md : Nat) : Int)]) (some e) := by
  simp only [retryAux, hfe, hcl, Bool.false_eq_true, if_false, hsig]
  rw [if_pos hrm]

/-- A 403 carrying exhausted-quota signals and a reset 30 s away. -/
def e403rl : GHError :=
  { status := some 403, message := some "API rate limit exceeded",
    remaining := some "0", reset := some 30 }

/-- A 429 carrying exhausted-quota signals and a reset 1 s away. -/
def e429rl : GHError :=
  { status := some 429, message := some "too many requests",
    remaining := some "0", reset := some 1 }

/-- C3 counterexample. First: a 403 whose quota is exhausted and whose
reset is 30 s away (squarely inside the claimed sleep-and-retry window) is
thrown as a non-retryable client error after ONE invocation with no sleep
— the earlier 4xx check catches 403 before the rate-limit branch, which is
unreachable for it. Second: a 429 inside the window, with `maxRetries = 1`
and an operation that would succeed on its second invocation, sleeps and
then fails WITHOUT a further invocation — the rate-limit retry consumed
the only loop slot, contradicting "without consuming a retry-budget
slot". -/
theorem c3_rate_limit_counterexample :
    ((retryWithBackoff 0 (fun _ => (.error e403rl : Except GHError Unit))
        defaultRetryOptions).result
      = .error (.api "API rate limit exceeded" (some 403) none) ∧
     (retryWithBackoff 0 (fun _ => (.error e403rl : Except GHError Unit))
        defaultRetryOptions).calls = 1 ∧
     (retryWithBackoff 0 (fun _ => (.error e403rl : Except GHError Unit))
        defaultRetryOptions).sleeps = []) ∧
    ((retryWithBackoff 0
        (fun k => if k = 0 then .error e429rl else (.ok 42 : Except GHError Nat))
        { maxRetries := 1, baseDelay := 1000, maxDelay := 10000 }).result
      = .error (.raw e429rl) ∧
     (retryWithBackoff 0
        (fun k => if k = 0 then .error e429rl else (.ok 42 : Except GHError Nat))
        { maxRetries := 1, baseDelay := 1000, maxDelay := 10000 }).calls = 1 ∧
     (retryWithBackoff 0
        (fun k => if k = 0 then .error e429rl else (.ok 42 : Except GHError Nat))
        { maxRetries := 1, baseDelay := 1000, maxDelay := 10000 }).sleeps
      = [1000]) :=
  ⟨⟨rfl, rfl, rfl⟩, ⟨rfl, rfl, rfl⟩⟩

/-- C3 (amended): (a) a 403 — rate-limited or not — is classified by the
earlier 4xx check as a non-retryable client error: one invocation, no
sleep; only 429 reaches the rate-limit handling. (b) A 429 with remaining
quota `'0'` and a reset signal whose wait lies in (0 s, 60 s) sleeps
exactly that wait and retries, but the retry CONSUMES a retry-budget
slot: with two slots the second invocation runs (and may succeed);
(c) with a single slot the loop ends after the sleep and the original
error is re-thrown without another invocation. (d) When the wait lies
outside the window it fails with the typed rate-limit error carrying the
wait. (e) A 429 without the exhausted-quota signals follows the ordinary
backoff-retry path. -/
theorem c3_rate_limit_amended :
    (∀ (e : GHError) (now : Int) (fn : Nat → Except GHError Unit)
        (opts : RetryOptions),
      e.status = some 403 → fn 0 = .error e → 1 ≤ opts.maxRetries →
      (retryWithBackoff now fn opts).result
          = .error (.api (jsOr e.message "GitHub API client error")
              (some 403) none) ∧
        (retryWithBackoff now fn opts).calls = 1 ∧
        (retryWithBackoff now fn opts).sleeps = []) ∧
    (∀ (e : GHError) (t now : Int) (a : Unit) (fn : Nat → Except GHError Unit)
        (bd md r : Nat),
      e.status = some 429 → e.remaining = some "0" → e.reset = some t →
      fn 0 = .error e → fn 1 = .ok a →
      0 < t * 1000 - now → t * 1000 - now < 60000 →
      retryWithBackoff now fn { maxRetries := r + 2, baseDelay := bd, maxDelay := md }
        = ⟨.ok a, 2, [t * 1000 - now]⟩) ∧
    (∀ (e : GHError) (t now : Int) (fn : Nat → Except GHError Unit) (bd md : Nat),
      e.status = some 429 → e.remaining = some "0" → e.reset = some t →
      fn 0 = .error e →
      0 < t * 1000 - now → t * 1000 - now < 60000 →
      retryWithBackoff now fn { maxRetries := 1, baseDelay := bd, maxDelay := md }
        = ⟨.error (.raw e), 1, [t * 1000 - now]⟩) ∧
    (∀ (e : GHError) (t now : Int) (fn : Nat → Except GHError Unit) (bd md r : Nat),
      e.status = some 429 → e.remaining = some "0" → e.reset = some t →
      fn 0 = .error e →
      ¬(0 < t * 1000 - now ∧ t * 1000 - now < 60000) →
      retryWithBackoff now fn { maxRetries := r + 1, baseDelay := bd, maxDelay := md }
        = ⟨.error (.api "GitHub API rate limit exceeded" (some 429)
            (some (t * 1000 - now))), 1, []⟩) ∧
    (∀ (e : GHError) (now : Int) (a : Unit) (fn : Nat → Except GHError Unit)
        (bd md r : Nat),
      e.status = some 429 → isRateLimitSignal e = false →
      fn 0 = .error e → fn 1 = .ok a →
      retryWithBackoff now fn { maxRetries := r + 2, baseDelay := bd, maxDelay := md }
        = ⟨.ok a, 2, [((min (bd * 2 ^ 0) md : Nat) : Int)]⟩) := by
  refine ⟨?_, ?_, ?_, ?_, ?_⟩
  · intro e now fn opts hst hfn hN
    obtain ⟨r, hr⟩ : ∃ r, opts.maxRetries = r + 1 := ⟨opts.maxRetries - 1, by omega⟩
    have hcl : isClientError e = true := by simp [isClientError, hst]
    unfold retryWithBackoff
    rw [hr,
      retryAux_step_client fn now opts.baseDelay opts.maxDelay r 0 0 [] none e hfn hcl,
      hst]
    exact ⟨rfl, rfl, rfl⟩
  · intro e t now a fn bd md r hst hrem hres hfn0 hfn1 hw1 hw2
    have hcl : isClientError e = false := by simp [isClientError, hst]
    have hsig : isRateLimitSignal e = true := by
      simp [isRateLimitSignal, hst, hrem, hres]
    have hwt : waitTime now e = t * 1000 - now := by simp [waitTime, hres]
    have hwin : 0 < waitTime now e ∧ waitTime now e < 60000 := by
      rw [hwt]; exact ⟨hw1, hw2⟩
    unfold retryWithBackoff
    rw [show r + 2 = (r + 1) + 1 from rfl,
      retryAux_step_ratelimited fn now bd md (r + 1) 0 0 [] none e hfn0 hcl hsig hwin,
      retryAux_step_ok fn now bd md r 1 1 ([] ++ [waitTime now e]) (some e) a hfn1,
      hwt]
    rfl
  · intro e t now fn bd md hst hrem hres hfn0 hw1 hw2
    have hcl : isClientError e = false := by simp [isClientError, hst]
    have hsig : isRateLimitSignal e = true := by
      simp [isRateLimitSignal, hst, hrem, hres]
    have hwt : waitTime now e = t * 1000 - now := by simp [waitTime, hres]
    have hwin : 0 < waitTime now e ∧ waitTime now e < 60000 := by
      rw [hwt]; exact ⟨hw1, hw2⟩
    unfold retryWithBackoff
    rw [show (1 : Nat) = 0 + 1 from rfl,
      retryAux_step_ratelimited fn now bd md 0 0 0 [] none e hfn0 hcl hsig hwin,
      retryAux, hwt]
    rfl
  · intro e t now fn bd md r hst hrem hres hfn0 hnw
    have hcl : isClientError e = false := by simp [isClientError, hst]
    have hsig : isRateLimitSignal e = true := by
      simp [isRateLimitSignal, hst, hrem, hres]
    have hwt : waitTime now e = t * 1000 - now := by simp [waitTime, hres]
    have hnw' : ¬(0 < waitTime now e ∧ waitTime now e < 60000) := by
      rw [hwt]; exact hnw
    unfold retryWithBackoff
    rw [retryAux_step_ratelimit_throw fn now bd md r 0 0 [] none e hfn0 hcl hsig hnw',
      hwt, hst]
  · intro e now a fn bd md r hst hsig hfn0 hfn1
    have hcl : isClientError e = false := by simp [isClientError, hst]
    unfold retryWithBackoff
    rw [show r + 2 = (r + 1) + 1 from rfl,
      retryAux_step_backoff fn now bd md (r + 1) 0 0 [] none e hfn0 hcl hsig
        (by omega),
      retryAux_step_ok fn now bd md r 1 1
        ([] ++ [((min (bd * 2 ^ 0) md : Nat) : Int)]) (some e) a hfn1]
    rfl

/-- A 429 with exhausted quota whose reset is 120 s away (outside the
sleep window). -/
def e429far : GHError :=
  { status := some 429, message := some "too many requests",
    remaining := some "0", reset := some 120 }

/-- A 429 without exhausted-quota signals (no headers). -/
def e429plain : GHError :=
  { status := some 429, message := some "too many requests",
    remaining := none, reset := none }

theorem c3_rate_limit_amended_witness :
    ((retryWithBackoff 0 (fun _ => (.error e403rl : Except GHError Unit))
        defaultRetryOptions).result
        = .error (.api (jsOr e403rl.message "GitHub API client error")
            (some 403) none) ∧
      (retryWithBackoff 0 (fun _ => (.error e403rl : Except GHError Unit))
        defaultRetryOptions).calls = 1 ∧
      (retryWithBackoff 0 (fun _ => (.error e403rl : Except GHError Unit))
        defaultRetryOptions).sleeps = []) ∧
    (retryWithBackoff 0
        (fun k => if k = 0 then .error e429rl else (.ok () : Except GHError Unit))
        { maxRetries := 3, baseDelay := 1000, maxDelay := 10000 }
      = ⟨.ok (), 2, [1000]⟩) ∧
    (retryWithBackoff 0
        (fun k => if k = 0 then .error e429rl else (.ok () : Except GHError Unit))
        { maxRetries := 1, baseDelay := 1000, maxDelay := 10000 }
      = ⟨.error (.raw e429rl), 1, [1000]⟩) ∧
    (retryWithBackoff 0
        (fun k => if k = 0 then .error e429far else (.ok () : Except GHError Unit))
        { maxRetries := 3, baseDelay := 1000, maxDelay := 10000 }
      = ⟨.error (.api "GitHub API rate limit exceeded" (some 429)
          (some 120000)), 1, []⟩) ∧
    (retryWithBackoff 0
        (fun k => if k = 0 then .error e429plain else (.ok () : Except GHError Unit))
        { maxRetries := 3, baseDelay := 1000, maxDelay := 10000 }
      = ⟨.ok (), 2, [1000]⟩) :=
  ⟨c3_rate_limit_amended.1 e403rl 0 (fun _ => .error e403rl)
      defaultRetryOptions rfl rfl (by decide),
   c3_rate_limit_amended.2.1 e429rl 1 0 ()
      (fun k => if k = 0 then .error e429rl else .ok ()) 1000 10000 1
      rfl rfl rfl rfl rfl (by decide) (by decide),
   c3_rate_limit_amended.2.2.1 e429rl 1 0
      (fun k => if k = 0 then .error e429rl else .ok ()) 1000 10000
      rfl rfl rfl rfl (by decide) (by decide),
   c3_rate_limit_amended.2.2.2.1 e429far 120 0
      (fun k => if k = 0 then .error e429far else .ok ()) 1000 10000 2
      rfl rfl rfl rfl (by decide),
   c3_rate_limit_amended.2.2.2.2 e429plain 0 ()
      (fun k => if k = 0 then .error e429plain else .ok ()) 1000 10000 1
      rfl rfl rfl rfl⟩

/-- An octokit oracle whose every primitive fails with `e` on the first
retry attempt (index 0) and succeeds from the second attempt on — the
canonical transient failure. -/
def okTransient (e : GHError) : Octokit :=
  { getTree := fun k => if k = 0 then .error e else .ok [],
    getRef := fun _ k => if k = 0 then .error e else .ok "basesha",
    createRef := fun _ _ _ => .ok (),
    getContent := fun _ _ k =>
      if k = 0 then .error e else .ok { content := some "body", sha := some "F1" },
    createOrUpdateFileContents := fun _ _ _ _ _ _ => .ok (),
    pullsCreate := fun _ _ _ k => if k = 0 then .error e else .ok 7,
    pullsMerge := fun _ k => if k = 0 then .error e else .ok (),
    deleteRef := fun _ k => if k = 0 then .error e else .ok (),
    listCommits := fun _ k => if k = 0 then .error e else .ok [] }

/-- The configuration used by concrete adapter runs. -/
def cfg1 : GHConfig := { branch := "main", docsPath := "docs" }

/-- C2 counterexample: against an oracle whose primitives fail once with a
500 and then succeed, `commitFile` and `deleteBranch` throw that first
transient failure (they are not executed through the retry wrapper), while
`getFileContent` — which IS wrapped — retries and succeeds. -/
theorem c2_not_all_retried_counterexample :
    commitFile (okTransient e500) cfg1 "b" "f.md" "c" "m" = .error e500 ∧
    deleteBranch (okTransient e500) "b" = .error e500 ∧
    (getFileContent (okTransient e500) cfg1 0 "f.md" none).result = .ok "body" :=
  ⟨rfl, rfl, rfl⟩

/-- Under the default options, an operation that fails with a 5xx once and
then succeeds is carried to success by the retry wrapper. -/
lemma retry_transient_succeeds (fn : Nat → Except GHError α) (now : Int)
    (e : GHError) (hs : isServerFailure e) (a : α)
    (hfn0 : fn 0 = .error e) (hfn1 : fn 1 = .ok a) :
    (retryWithBackoff now fn defaultRetryOptions).result = .ok a := by
  have hcl := isClientError_of_server e hs
  have hsig := isRateLimitSignal_of_server e hs
  have h1 : retryWithBackoff now fn defaultRetryOptions
      = retryAux fn now 1000 10000 (2 + 1) 0 0 [] none := rfl
  rw [h1,
    retryAux_step_backoff fn now 1000 10000 2 0 0 [] none e hfn0 hcl hsig
      (by omega)]
  have h2 : retryAux fn now 1000 10000 2 (0 + 1) (0 + 1)
        ([] ++ [((min (1000 * 2 ^ 0) 10000 : Nat) : Int)]) (some e)
      = retryAux fn now 1000 10000 (1 + 1) 1 1
        ([] ++ [((min (1000 * 2 ^ 0) 10000 : Nat) : Int)]) (some e) := rfl
  rw [h2, retryAux_step_ok fn now 1000 10000 1 1 1
    ([] ++ [((min (1000 * 2 ^ 0) 10000 : Nat) : Int)]) (some e) a hfn1]

/-- C2 (amended): only `getDocsTree` (listTree), `getFileContent`
(readFile) and `createDraftBranch` (createBranch) are executed through the
Resilience Layer's retry wrapper — on a transient first 5xx they retry and
succeed; the remaining operations (`commitFile`, `createPullRequest`,
`mergePullRequest`, `deleteBranch`, `getFileHistory`, `uploadMedia`,
`getMediaContent`) are invoked once and propagate the first failure. -/
theorem c2_retry_coverage (e : GHError) (hs : isServerFailure e)
    (cfg : GHConfig) (now : Int) :
    ((getDocsTree (okTransient e) cfg now).result = .ok []) ∧
    (∀ p r, (getFileContent (okTransient e) cfg now p r).result = .ok "body") ∧
    (∀ b, (createDraftBranch (okTransient e) cfg now b).result = .ok "basesha") ∧
    (∀ b p c m, commitFile (okTransient e) cfg b p c m = .error e) ∧
    (∀ b t bo, createPullRequest (okTransient e) b t bo = .error e) ∧
    (∀ n, mergePullRequest (okTransient e) n = .error e) ∧
    (∀ b, deleteBranch (okTransient e) b = .error e) ∧
    (∀ p, getFileHistory (okTransient e) cfg p = .error e) ∧
    (∀ p c m b, uploadMedia (okTransient e) cfg p c m b = .error e) ∧
    (∀ p r, getMediaContent (okTransient e) cfg p r = .error e) := by
  have h404 : (e.status == some 404) = false := by
    obtain ⟨s, hst, h5, _⟩ := hs
    rw [hst]
    simp only [beq_eq_false_iff_ne, ne_eq, Option.some.injEq]
    omega
  refine ⟨?_, ?_, ?_, ?_, ?_, ?_, ?_, ?_, ?_, ?_⟩
  · unfold getDocsTree
    exact retry_transient_succeeds _ now e hs [] rfl rfl
  · intro p r
    unfold getFileContent
    exact retry_transient_succeeds _ now e hs "body" rfl rfl
  · intro b
    unfold createDraftBranch
    exact retry_transient_succeeds _ now e hs "basesha" rfl rfl
  · intro b p c m
    unfold commitFile
    simp [okTransient, h404]
  · intro b t bo
    rfl
  · intro n
    rfl
  · intro b
    rfl
  · intro p
    rfl
  · intro p c m b
    unfold uploadMedia
    simp [okTransient, h404]
  · intro p r
    rfl

theorem c2_retry_coverage_witness :
    ((getDocsTree (okTransient e500) cfg1 0).result = .ok []) ∧
    ((getFileContent (okTransient e500) cfg1 0 "f.md" none).result
      = .ok "body") ∧
    ((createDraftBranch (okTransient e500) cfg1 0 "b").result
      = .ok "basesha") ∧
    (commitFile (okTransient e500) cfg1 "b" "f.md" "c" "m" = .error e500) ∧
    (createPullRequest (okTransient e500) "b" "t" "bo" = .error e500) ∧
    (mergePullRequest (okTransient e500) 7 = .error e500) ∧
    (deleteBranch (okTransient e500) "b" = .error e500) ∧
    (getFileHistory (okTransient e500) cfg1 "f.md" = .error e500) ∧
    (uploadMedia (okTransient e500) cfg1 "img.png" "bytes" "m" none = .error e500) ∧
    (getMediaContent (okTransient e500) cfg1 "img.png" none = .error e500) :=
  have h := c2_retry_coverage e500 ⟨500, rfl, by omega, by omega⟩ cfg1 0
  ⟨h.1, h.2.1 "f.md" none, h.2.2.1 "b", h.2.2.2.1 "b" "f.md" "c" "m",
   h.2.2.2.2.1 "b" "t" "bo", h.2.2.2.2.2.1 7, h.2.2.2.2.2.2.1 "b",
   h.2.2.2.2.2.2.2.1 "f.md", h.2.2.2.2.2.2.2.2.1 "img.png" "bytes" "m" none,
   h.2.2.2.2.2.2.2.2.2 "img.png" none⟩

/-- C1: the conflict check does not exist in the code. The caller supplies
`expectedFingerprint = "F0"` while the branch's current stored fingerprint
(the blob sha the adapter itself fetches, via `okTrivial.getContent`) is
`"F1"`; the handler — wired to the real adapter chain via `clientRemote`
— ignores the supplied fingerprint entirely, performs the remote write and
answers 200 with the updated record; no `ConflictError` (409) is raised
anywhere. -/
theorem c1_conflict_check_missing :
    (okTrivial.getContent (cfg1.docsPath ++ "/" ++ draft1.docPath)
        draft1.branchName 0
      = .ok { content := some "old text", sha := some "F1" }) ∧
    "F0" ≠ "F1" ∧
    putDraftRoute (clientRemote okTrivial cfg1 0) store1 100 "d1"
        { content := some "new text", message := none,
          expectedFingerprint := some "F0" }
      = ⟨.ok 200 (some { draft1 with updatedAt := 100 }),
         { drafts := [{ draft1 with updatedAt := 100 }], comments := [] },
         [.commitFile draft1.branchName draft1.docPath "new text"
           "Update: Guide"]⟩ :=
  ⟨rfl, by decide, rfl⟩

/-- C1 (supplementary): the handler's outcome is entirely independent of
any expected fingerprint the caller sends — the field is never read. -/
theorem c1_fingerprint_ignored (remote : Remote) (data : DraftsData)
    (now : Int) (id : String) (body : UpdateBody) (fp : Option String) :
    putDraftRoute remote data now id { body with expectedFingerprint := fp }
      = putDraftRoute remote data now id
          { body with expectedFingerprint := none } := by
  unfold putDraftRoute
  rfl

theorem c1_fingerprint_ignored_witness :
    putDraftRoute remoteOkStub store1 100 "d1"
        { content := some "new text", message := none,
          expectedFingerprint := some "F0" }
      = putDraftRoute remoteOkStub store1 100 "d1"
          { content := some "new text", message := none,
            expectedFingerprint := none } :=
  c1_fingerprint_ignored remoteOkStub store1 100 "d1"
    { content := some "new text", message := none, expectedFingerprint := none }
    (some "F0")
